import Mathlib

/-!
# SentinelShare — verification of the receipt-detection and scheduling core

A shallow embedding of the Python sources under `backend/` (the receipt
detection strategies, the `ReceiptDetector` coordinator, the scheduler's
per-message processing loop, the overlap guard, and the retention cleanup
job), together with theorems settling the specification claims.

Conventions of the embedding:
* Python strings are Lean `String`s; Python `x.lower()` is `pyLower`
  (the inputs of interest are ASCII).
* Python's `needle in haystack` substring test is `strContains`.
* Python `re.search(pat, text, re.IGNORECASE)` is `reSearch` over a regular
  expression AST transcribed from the source pattern; all strategy inputs are
  lower-cased by `_extract_email_fields` before any pattern is applied, and
  every source pattern is lower-case, so case-insensitivity is definitionally
  satisfied on the embedded (lower-cased) inputs.
* Python `re.match` (anchored at the start) is `reMatchPrefix`.
* `None`-able Python values are `Option`s; Python truthiness of an optional
  string (`if rule.email_pattern:`) is `otruthy`.
-/

/-- Substring containment on character lists. -/
def listContains : List Char → List Char → Bool
  | [], needle => needle.isEmpty
  | c :: t, needle => needle.isPrefixOf (c :: t) || listContains t needle

/-- Python `needle in haystack` on strings (substring containment). -/
def strContains (haystack needle : String) : Bool :=
  listContains haystack.toList needle.toList

/-- Python `opt or default` for an optional string: `None` and `""` are falsy. -/
def pyOr (o : Option String) (d : String) : String :=
  match o with
  | none => d
  | some s => if s = "" then d else s

/-- Python truthiness of an optional string field (`None` and `""` are falsy). -/
def otruthy (o : Option String) : Bool :=
  match o with
  | none => false
  | some s => s ≠ ""

/-- An apostrophe character, used in source patterns, built by code point. -/
def apos : String := String.singleton (Char.ofNat 39)

/-- ASCII lower-casing of one character (the sources handle ASCII mail
headers; `str.lower()` agrees with this on ASCII). -/
def lowerChar (c : Char) : Char :=
  if 'A' ≤ c && c ≤ 'Z' then Char.ofNat (c.toNat + 32) else c

/-- Python `s.lower()` (ASCII). -/
def pyLower (s : String) : String := String.mk (s.toList.map lowerChar)

/-! ## A small regular-expression engine

Brzozowski-derivative matcher covering exactly the constructs used by the
source's patterns: literals, the classes `\s`, `\d`, `.`, bracket classes,
concatenation, alternation, `*`, `+`, `?`, and bounded repetition `{n}` /
`{n,}`.  `reSearch` is Python `re.search` (match anywhere), `reMatchPrefix`
is Python `re.match` (match a prefix). -/

/-- Regular-expression AST.  `cls` carries the character predicate of a
character class. -/
inductive RE where
  | nul : RE
  | eps : RE
  | cls : (Char → Bool) → RE
  | seq : RE → RE → RE
  | alt : RE → RE → RE
  | star : RE → RE

/-- Does the regex accept the empty string? -/
def RE.nullable : RE → Bool
  | .nul => false
  | .eps => true
  | .cls _ => false
  | .seq a b => a.nullable && b.nullable
  | .alt a b => a.nullable || b.nullable
  | .star _ => true

/-- Smart sequencing (keeps derivatives small). -/
def RE.mkSeq : RE → RE → RE
  | .nul, _ => .nul
  | .eps, b => b
  | a, b => .seq a b

/-- Smart alternation (keeps derivatives small). -/
def RE.mkAlt : RE → RE → RE
  | .nul, b => b
  | a, .nul => a
  | a, b => .alt a b

/-- Brzozowski derivative with respect to one character. -/
def RE.deriv (c : Char) : RE → RE
  | .nul => .nul
  | .eps => .nul
  | .cls p => if p c then .eps else .nul
  | .seq a b =>
      if a.nullable then .mkAlt (.mkSeq (a.deriv c) b) (b.deriv c)
      else .mkSeq (a.deriv c) b
  | .alt a b => .mkAlt (a.deriv c) (b.deriv c)
  | .star a => .mkSeq (a.deriv c) (.star a)

/-- Does some prefix of `s` match `r`?  (Python `re.match`.) -/
def RE.matchPrefixL (r : RE) : List Char → Bool
  | [] => r.nullable
  | c :: cs => r.nullable || (r.deriv c).matchPrefixL cs

/-- Does some substring of `s` match `r`?  (Python `re.search`, unanchored.) -/
def RE.searchL (r : RE) : List Char → Bool
  | [] => r.nullable
  | c :: cs => r.matchPrefixL (c :: cs) || r.searchL cs

/-- Python `re.search(pat, text)` for an unanchored pattern. -/
def reSearch (r : RE) (s : String) : Bool := r.searchL s.toList

/-- Python `re.match(pat, text)` / `re.search("^…", text)` (anchored). -/
def reMatchPrefix (r : RE) (s : String) : Bool := r.matchPrefixL s.toList

/-- A source pattern together with its anchoring: `^…` patterns under
`re.search` match only at the start of the text. -/
structure Pat where
  anchored : Bool := false
  re : RE

/-- Apply a pattern the way `re.search` does, honouring a leading `^`. -/
def Pat.search (p : Pat) (s : String) : Bool :=
  if p.anchored then reMatchPrefix p.re s else reSearch p.re s

/-! ### Pattern combinators used to transcribe the source regexes -/

/-- Single literal character. -/
def rchar (c : Char) : RE := .cls (· == c)

/-- Literal string. -/
def rlit (s : String) : RE := s.toList.foldr (fun c r => .seq (rchar c) r) .eps

/-- Python `\s` (ASCII whitespace: space, tab, newline, CR, VT, FF). -/
def rws : RE :=
  .cls fun c =>
    c == ' ' || c == '\t' || c == '\n' || c == '\r' ||
    c == Char.ofNat 11 || c == Char.ofNat 12

/-- Python `\d` (ASCII digits on the lower-cased ASCII inputs in use). -/
def rdigit : RE := .cls Char.isDigit

/-- `.` — any character except a newline (no `re.DOTALL` in the source). -/
def rdot : RE := .cls (· != '\n')

/-- `r?` -/
def ropt (r : RE) : RE := .alt .eps r

/-- `r+` -/
def rplus (r : RE) : RE := .seq r (.star r)

/-- `r{n}` -/
def rrep : Nat → RE → RE
  | 0, _ => .eps
  | n + 1, r => .seq r (rrep n r)

/-- `r{n,}` -/
def ratleast (n : Nat) (r : RE) : RE := .seq (rrep n r) (.star r)

/-- Sequence a list of regexes. -/
def rcat (l : List RE) : RE := l.foldr .seq .eps

/-- Alternation over a list of regexes (`(a|b|c)`). -/
def ralts : List RE → RE
  | [] => .nul
  | [r] => r
  | r :: rs => .alt r (ralts rs)

/-- `[a-z0-9\-]` -/
def clsAlnumDash : RE :=
  .cls fun c => ('a' ≤ c && c ≤ 'z') || c.isDigit || c == '-'

/-- `[0-9,]` -/
def clsDigitComma : RE := .cls fun c => c.isDigit || c == ','

/-- `\s*` -/
def rws0 : RE := .star rws

/-- `\s+` -/
def rws1 : RE := rplus rws

/-! ## Shell-style wildcard matching (Python `fnmatch.fnmatch`)

The manual rules use `fnmatch.fnmatch(sender, pattern.lower())`; on POSIX
`os.path.normcase` is the identity, so this is a case-sensitive glob match of
the (already lower-cased) name against the lower-cased pattern, with `*`,
`?` and `[...]` classes (`[!...]` negation, `a-z` ranges, a `]` right after
the opening bracket taken literally, and an unterminated `[` taken as a
literal character). -/

/-- One token of a compiled glob pattern. -/
inductive GTok where
  | star : GTok
  | qmark : GTok
  | lit : Char → GTok
  | cls : Bool → List (Char × Char) → GTok

/-- Scan a bracket-class body up to the closing `]`; `none` if unterminated. -/
def scanToClose : List Char → Option (List Char × List Char)
  | [] => none
  | ']' :: rest => some ([], rest)
  | c :: rest => (scanToClose rest).map fun p => (c :: p.1, p.2)

/-- Split off a bracket class after an opening `[`, returning the negation
flag, the class body, and the rest of the pattern (mirrors the scan in
`fnmatch.translate`: a leading `!` negates, a `]` immediately after `[` or
`[!` is a literal member). -/
def splitClass (p : List Char) : Option (Bool × List Char × List Char) :=
  match p with
  | '!' :: ']' :: r => (scanToClose r).map fun q => (true, ']' :: q.1, q.2)
  | '!' :: q => (scanToClose q).map fun r => (true, r.1, r.2)
  | ']' :: r => (scanToClose r).map fun q => (false, ']' :: q.1, q.2)
  | q => (scanToClose q).map fun r => (false, r.1, r.2)

/-- Interpret a class body as ranges: `a-z` is a range, everything else a
singleton (a trailing or leading `-` is literal). -/
def parseRanges : List Char → List (Char × Char)
  | a :: '-' :: b :: rest => (a, b) :: parseRanges rest
  | a :: rest => (a, a) :: parseRanges rest
  | [] => []

/-- Membership in a list of character ranges. -/
def inRanges (rs : List (Char × Char)) (c : Char) : Bool :=
  rs.any fun r => r.1 ≤ c && c ≤ r.2

/-- Compile a glob pattern into tokens.  `fuel` bounds the recursion and is
instantiated with the pattern length (a bracket class always consumes at
least one character). -/
def tokenizeGlob : Nat → List Char → List GTok
  | 0, _ => []
  | _ + 1, [] => []
  | f + 1, '*' :: ps => .star :: tokenizeGlob f ps
  | f + 1, '?' :: ps => .qmark :: tokenizeGlob f ps
  | f + 1, '[' :: ps =>
      match splitClass ps with
      | some (neg, body, rest) => .cls neg (parseRanges body) :: tokenizeGlob f rest
      | none => .lit '[' :: tokenizeGlob f ps
  | f + 1, c :: ps => .lit c :: tokenizeGlob f ps

/-- Match compiled glob tokens against a name.  The `fuel` argument (kept
structural so the kernel can evaluate the function) bounds the recursion;
`tokens.length + name.length` always suffices, and `matchGlobF` only ever
recurses with a strictly smaller combined size. -/
def matchGlobF : Nat → List GTok → List Char → Bool
  | 0, _, _ => false
  | _ + 1, [], [] => true
  | _ + 1, [], _ :: _ => false
  | f + 1, .star :: ts, [] => matchGlobF f ts []
  | f + 1, .star :: ts, c :: cs =>
      matchGlobF f ts (c :: cs) || matchGlobF f (.star :: ts) cs
  | f + 1, .qmark :: ts, _ :: cs => matchGlobF f ts cs
  | _ + 1, .qmark :: _, [] => false
  | f + 1, .lit a :: ts, c :: cs => a == c && matchGlobF f ts cs
  | _ + 1, .lit _ :: _, [] => false
  | f + 1, .cls neg rs :: ts, c :: cs =>
      (inRanges rs c != neg) && matchGlobF f ts cs
  | _ + 1, .cls _ _ :: _, [] => false

/-- Match compiled glob tokens against a name. -/
def matchGlob (ts : List GTok) (s : List Char) : Bool :=
  matchGlobF (ts.length + s.length + 1) ts s

/-- Python `fnmatch.fnmatch(name, pat)` on POSIX (no case folding needed:
both sides are already lower-cased at every call site). -/
def fnmatch (name pat : String) : Bool :=
  matchGlob (tokenizeGlob pat.toList.length pat.toList) name.toList

/-! ## Data model

Transcribed from the fields the sources read and write (`backend.models` is
accessed through SQLModel records; the fields below are the ones the core
uses).  Timestamps are integers (minutes); rational numbers stand for the
learning confidences. -/

/-- A fetched email message, as the dict produced by the mail source and
consumed by the strategies (`sender` models the dict's `"from"` entry; a
missing Message-ID is the empty string, mirroring Python falsiness). -/
structure EmailData where
  message_id : String := ""
  subject : String := ""
  body : String := ""
  html_body : String := ""
  sender : String := ""
  account_email : String := ""
deriving DecidableEq, Repr

/-- `backend.models.ManualRule` (the fields the core reads and writes). -/
structure ManualRule where
  email_pattern : Option String := none
  subject_pattern : Option String := none
  priority : Int := 0
  purpose : Option String := none
  confidence : ℚ := 0
  match_count : Nat := 0
  is_shadow_mode : Bool := false
deriving DecidableEq, Repr

/-- `backend.models.Preference`: a typed allow/deny item. -/
structure Preference where
  type : String
  item : String
deriving DecidableEq, Repr

/-- The rule context a database session provides to the detector: the manual
rules (as stored; the strategy orders them itself) and the preferences. -/
structure RuleDB where
  manual_rules : List ManualRule := []
  preferences : List Preference := []
deriving DecidableEq, Repr

/-- `backend.services.detectors.base.DetectionResult`. -/
structure DetectionResult where
  is_match : Bool
  confidence : Nat := 0
  reason : Option String := none
  matched_by : Option String := none
deriving DecidableEq, Repr

/-- `DetectionStrategy._extract_email_fields`: lower-cased
(subject, body, sender).  On the canonical record the dict-or-attribute
fallback chains collapse to reading the three fields. -/
def extractEmailFields (email : EmailData) : String × String × String :=
  (pyLower email.subject, pyLower email.body, pyLower email.sender)

/-- `DetectionStrategy._mask_text`: only the length of the text is exposed. -/
def maskText (text : String) : String :=
  if text = "" then "" else "*** (masked, " ++ toString text.length ++ " chars)"

/-! ## ManualRuleStrategy (`manual_rule_strategy.py`) -/

/-- Does a manual rule match?  Every non-empty (truthy) pattern it declares
must match (`fnmatch` against the lower-cased pattern). -/
def ruleMatches (subject sender : String) (rule : ManualRule) : Bool :=
  (if otruthy rule.email_pattern then
      fnmatch sender (pyLower (pyOr rule.email_pattern ""))
    else true) &&
  (if otruthy rule.subject_pattern then
      fnmatch subject (pyLower (pyOr rule.subject_pattern ""))
    else true)

/-- Insert into a list sorted by descending priority (stable). -/
def insertByPriorityDesc (r : ManualRule) : List ManualRule → List ManualRule
  | [] => [r]
  | x :: xs =>
      if x.priority < r.priority then r :: x :: xs
      else x :: insertByPriorityDesc r xs

/-- `select(ManualRule).order_by(ManualRule.priority.desc())`: the rules in
descending priority order (stable insertion sort). -/
def rulesByPriorityDesc : List ManualRule → List ManualRule
  | [] => []
  | r :: rs => insertByPriorityDesc r (rulesByPriorityDesc rs)

/-- `ManualRuleStrategy._check_manual_rules`: first matching rule in
descending-priority order. -/
def checkManualRules (subject sender : String) (db : RuleDB) : Option ManualRule :=
  (rulesByPriorityDesc db.manual_rules).find? (ruleMatches subject sender)

/-- The "Always Forward" preference check: first preference of that type
whose lower-cased item is a substring of the sender or the subject. -/
def alwaysForwardMatch (subject sender : String) (db : RuleDB) : Option Preference :=
  (db.preferences.filter (fun p => p.type == "Always Forward")).find?
    fun p => strContains sender (pyLower p.item) || strContains subject (pyLower p.item)

/-- The "Blocked Sender" / "Blocked Category" preference check. -/
def blockedMatch (subject sender : String) (db : RuleDB) : Option Preference :=
  (db.preferences.filter
      (fun p => p.type == "Blocked Sender" || p.type == "Blocked Category")).find?
    fun p => strContains sender (pyLower p.item) || strContains subject (pyLower p.item)

/-- `ManualRuleStrategy.detect`. -/
def manualRuleDetect (email : EmailData) (session : Option RuleDB) : DetectionResult :=
  match session with
  | none => { is_match := false }
  | some db =>
    let (subject, _, sender) := extractEmailFields email
    match checkManualRules subject sender db with
    | some rule =>
        { is_match := true, confidence := 100,
          reason := some ("Manual rule match: " ++ pyOr rule.purpose "No purpose"),
          matched_by := some "Manual Rule" }
    | none =>
      match alwaysForwardMatch subject sender db with
      | some pref =>
          { is_match := true, confidence := 100,
            reason := some ("Preference match (Always Forward): " ++ maskText pref.item),
            matched_by := some "Always Forward Preference" }
      | none =>
        match blockedMatch subject sender db with
        | some pref =>
            { is_match := false, confidence := 100,
              reason := some ("Preference match (Blocked): " ++ maskText pref.item),
              matched_by := some "Blocked Preference" }
        | none => { is_match := false }

/-! ## TransactionalStrategy (`transactional_strategy.py`) -/

/-- `\$[0-9,]+\.[0-9]{2}` — a currency amount. -/
def currencyRE : RE :=
  rcat [rchar '$', rplus clsDigitComma, rchar '.', rrep 2 rdigit]

/-- `TransactionalStrategy.DEFINITIVE_PATTERNS`. -/
def DEFINITIVE_PATTERNS : List RE :=
  [ rcat [rlit "payment", rws1, rlit "receipt"],
    rcat [rlit "order", rws1, rlit "confirmation"],
    rcat [rlit "purchase", rws1, rlit "confirmation"],
    rcat [rlit "receipt", rws1, rlit "for", rws1, rlit "your", rws1, rlit "payment"] ]

/-- `TransactionalStrategy.STRONG_KEYWORDS` (plain substring checks). -/
def STRONG_KEYWORDS : List String :=
  [ "receipt", "invoice", "order complete", "payment received", "order summary",
    "order placed", "billing statement", "account statement",
    "thank you for your order", "order total", "amount charged",
    "subscribe & save", "subscription order", "ordered", "ordered:", "renewal",
    "license plate renewal" ]

/-- `TransactionalStrategy.STRONG_REGEX_PATTERNS`. -/
def STRONG_REGEX_PATTERNS : List RE :=
  [ rcat [rlit "order", .star rdot, rlit "confirmation"],
    rcat [rlit "payment", .star rdot, rlit "confirmation"],
    rcat [rlit "purchase", .star rdot, rlit "confirmation"] ]

/-- `order\s*#?\s*[a-z0-9\-]{6,}` and its `invoice`/`transaction`/`tracking`
variants. -/
def numberedRefRE (word : String) (minLen : Nat) : RE :=
  rcat [rlit word, rws0, ropt (rchar '#'), rws0, ratleast minLen clsAlnumDash]

/-- `arriving (tomorrow|today|monday|…|sunday)`. -/
def arrivingRE : RE :=
  rcat [rlit "arriving ",
    ralts [rlit "tomorrow", rlit "today", rlit "monday", rlit "tuesday",
      rlit "wednesday", rlit "thursday", rlit "friday", rlit "saturday",
      rlit "sunday"] ]

/-- `TransactionalStrategy.SUPPORTING_EVIDENCE`. -/
def SUPPORTING_EVIDENCE : List RE :=
  [ numberedRefRE "order" 6,
    numberedRefRE "invoice" 6,
    numberedRefRE "transaction" 6,
    numberedRefRE "tracking" 8,
    currencyRE,
    rcat [rlit "total", ropt (rchar ':'), rws0, currencyRE],
    rcat [rlit "amount", ropt (rchar ':'), rws0, currencyRE],
    rcat [rlit "paid", ropt (rchar ':'), rws0, currencyRE],
    rlit "view your order",
    arrivingRE ]

/-- `thank\s*you\s*for\s*(your\s*)?(order|purchase)`. -/
def thankYouRE : RE :=
  rcat [rlit "thank", rws0, rlit "you", rws0, rlit "for", rws0,
    ropt (rcat [rlit "your", rws0]), ralts [rlit "order", rlit "purchase"]]

/-- `TransactionalStrategy.TRANSACTION_INDICATORS`: weighted indicator
patterns (`^ordered:` is start-anchored). -/
def TRANSACTION_INDICATORS : List (Pat × Nat) :=
  [ ({ re := numberedRefRE "order" 6 }, 2),
    ({ re := currencyRE }, 2),
    ({ re := thankYouRE }, 2),
    ({ re := numberedRefRE "invoice" 6 }, 2),
    ({ re := rlit "transaction" }, 1),
    ({ re := rlit "payment" }, 1),
    ({ re := rlit "billing" }, 1),
    ({ re := rlit "statement" }, 1),
    ({ re := rcat [rlit "account", rws0, rlit "balance"] }, 1),
    ({ re := rcat [rlit "due", rws0, rlit "date"] }, 1),
    ({ re := rlit "autopay" }, 1),
    ({ re := rcat [rlit "direct", rws0, rlit "debit"] }, 1),
    ({ anchored := true, re := rlit "ordered:" }, 2) ]

/-- `TransactionalStrategy.KNOWN_RECEIPT_SENDERS` (substring checks). -/
def KNOWN_RECEIPT_SENDERS : List String :=
  [ "amazon.com", "amazon.co", "amazonses.com", "auto-confirm@amazon.com",
    "order-update@amazon.com", "digital-no-reply@amazon.com",
    "payments-messages@amazon.com", "paypal.com", "paypal-communications.com",
    "stripe.com", "square.com", "apple.com", "itunes.com", "google.com",
    "googlepayments.com", "microsoft.com", "xbox.com", "uber.com", "lyft.com",
    "doordash.com", "grubhub.com", "instacart.com", "shipt.com" ]

/-- `TransactionalStrategy.CONFIRMATION_PATTERNS`. -/
def CONFIRMATION_PATTERNS : List RE :=
  [ rlit "confirmation", rlit "receipt",
    rcat [rlit "order", rws0, rchar '#'],
    rlit "invoice", rlit "payment", rlit "charged", rlit "bill",
    rlit "statement", currencyRE ]

/-- `TransactionalStrategy.REPLY_PATTERNS` (applied with `re.match`). -/
def REPLY_PATTERNS : List RE :=
  [ rcat [rlit "re:", rws0],
    rcat [rlit "fw", ropt (rchar 'd'), rchar ':', rws0],
    rcat [rlit "fw:", rws0],
    rcat [rlit "forward:", rws0],
    rlit "[fwd]",
    rlit "(fwd)" ]

/-- `TransactionalStrategy._is_reply_or_forward`.  `selfEmails` is the
configured own-address list the source assembles from `WIFE_EMAIL`,
`GMAIL_EMAIL`/`ICLOUD_EMAIL`/`SENDER_EMAIL` and
`EmailService.get_all_accounts()` (all lower-cased, unset entries dropped);
each entry is tested as a substring of the sender. -/
def isReplyOrForward (selfEmails : List String) (subject sender : String) : Bool :=
  REPLY_PATTERNS.any (fun r => reMatchPrefix r subject) ||
  selfEmails.any (fun e => strContains sender e)

/-- `TransactionalStrategy._has_strong_receipt_indicators`. -/
def hasStrongReceiptIndicators (subject body : String) : Bool :=
  if DEFINITIVE_PATTERNS.any (fun p => reSearch p subject) then true
  else
    let hasKeyword := STRONG_KEYWORDS.any
      (fun k => strContains subject k || strContains body k)
    let text := subject ++ " " ++ body
    let hasRegex := STRONG_REGEX_PATTERNS.any (fun p => reSearch p text)
    if !(hasKeyword || hasRegex) then false
    else SUPPORTING_EVIDENCE.any (fun p => reSearch p text)

/-- `TransactionalStrategy._calculate_transactional_score`. -/
def calcTransactionalScore (subject body sender : String) : Nat :=
  let text := subject ++ " " ++ body ++ " " ++ sender
  TRANSACTION_INDICATORS.foldl
    (fun score pw => if pw.1.search text then score + pw.2 else score) 0

/-- `TransactionalStrategy._is_known_receipt_sender`. -/
def isKnownReceiptSender (sender : String) : Bool :=
  KNOWN_RECEIPT_SENDERS.any (fun s => strContains sender s)

/-- `TransactionalStrategy._has_transaction_confirmation`. -/
def hasTransactionConfirmation (subject body : String) : Bool :=
  CONFIRMATION_PATTERNS.any (fun p => reSearch p subject || reSearch p body)

/-- `TransactionalStrategy.detect`. -/
def transactionalDetect (selfEmails : List String) (email : EmailData) :
    DetectionResult :=
  let (subject, body, sender) := extractEmailFields email
  if isReplyOrForward selfEmails subject sender then
    { is_match := false, confidence := 100,
      reason := some "Reply or forward email",
      matched_by := some "Transactional Strategy" }
  else if hasStrongReceiptIndicators subject body then
    { is_match := true, confidence := 95,
      reason := some "Strong receipt indicators found",
      matched_by := some "Transactional Strategy" }
  else
    let score := calcTransactionalScore subject body sender
    if 3 ≤ score then
      { is_match := true, confidence := min (score * 20) 100,
        reason := some ("High transactional score (" ++ toString score ++ ")"),
        matched_by := some "Transactional Strategy" }
    else if isKnownReceiptSender sender && hasTransactionConfirmation subject body then
      { is_match := true, confidence := 85,
        reason := some "Known sender with transaction confirmation",
        matched_by := some "Transactional Strategy" }
    else { is_match := false }

/-! ## PromotionalStrategy (`promotional_strategy.py`) -/

/-- `PromotionalStrategy.PROMOTIONAL_KEYWORDS` (substring checks; the list
is transcribed verbatim, duplicates included). -/
def PROMOTIONAL_KEYWORDS : List String :=
  [ "sale", "discount", "coupon", "deal", "deals", "offer", "promotion",
    "promo", "save", "savings", "off", "clearance", "limited time", "hurry",
    "newsletter", "weekly ad", "special offer", "flash sale", "free shipping",
    "member exclusive", "subscriber", "unsubscribe", "marketing", "browse",
    "shop now", "check out", "new arrivals", "trending", "bestseller",
    "featured", "recommended", "catalog", "circular", "black friday",
    "cyber monday", "holiday sale", "back to school", "rewards program",
    "loyalty", "points earned", "cashback earned", "gift card", "sweepstakes",
    "contest", "giveaway", "win", "personalized", "just for you",
    "based on your", "you might like", "weekly digest", "daily digest",
    "roundup", "this week", "new releases", "best deals", "top deals",
    "hot deals", "price drop", "discounted", "on sale", "reduced price",
    "lowest price", "price alert", "wishlist", "watch list", "compare prices",
    "deal alert", "digest", "update", "news", "updates", "latest", "recent",
    "weekly", "monthly", "daily", "edition", "issue", "curated", "handpicked",
    "selected", "picks", "discover", "explore", "find", "search", "browse",
    "view all", "see more", "learn more", "read more", "get started",
    "sign up", "join", "register", "download", "try", "expires", "ending",
    "last chance", "final", "closing", "while supplies last",
    "limited quantity", "almost gone" ]

/-- `PromotionalStrategy.MARKETING_PATTERNS`. -/
def MARKETING_PATTERNS : List RE :=
  [ rcat [rplus rdigit, rchar '%', rws0, rlit "off"],
    rcat [rlit "save", rws0, rchar '$', rplus rdigit],
    rcat [rlit "free", rws0, rlit "shipping"],
    rcat [rlit "limited", rws0, rlit "time"],
    rcat [rlit "act", rws0, rlit "now"],
    rcat [rlit "shop", rws0, rlit "now"],
    rcat [rlit ("don" ++ apos ++ "t"), rws0, rlit "miss"],
    rlit "hurry",
    rcat [rlit "ends", rws0, ralts [rlit "soon", rlit "today"]],
    rcat [rlit "check", rws0, rlit "this", rws0, rlit "week"],
    rcat [rlit "new", rws0, rlit "discounts"],
    rcat [rlit "best", rws0, rlit "deals"],
    rcat [rlit "weekly", rws0, rlit "digest"],
    rcat [rchar '+', rplus rdigit, rws0, rlit "this", rws0, rlit "week"],
    rcat [rlit "deal", ropt (rchar 's'), rws0, rlit "weekly"],
    rcat [rlit "price", rws0, rlit "drop"],
    rcat [rlit "now", rws0, rchar '$', rplus rdigit] ]

/-- `PromotionalStrategy.TRACKING_PATTERNS`. -/
def TRACKING_PATTERNS : List RE :=
  [ rlit "awstrack.me", rlit "click.", rlit "track.", rlit "utm_",
    rlit "newsletter", rlit "unsubscribe" ]

/-- `PromotionalStrategy.DEALS_PATTERNS`. -/
def DEALS_PATTERNS : List RE :=
  [ rcat [rlit "deal", ropt (rchar 's'), rws0, rlit "net"],
    rcat [rlit "deal", ropt (rchar 's'), rws0, rlit "com"],
    rlit "bargain",
    rlit "slickdeals",
    rcat [rlit "reddit", .star rdot, rlit "deals"],
    rcat [rlit "steam", .star rdot, rlit "sale"],
    rcat [rlit "game", .star rdot, rlit "deals"] ]

/-- `PromotionalStrategy.PROMO_ALLOWLIST_PATTERNS` (substring checks). -/
def PROMO_ALLOWLIST_PATTERNS : List String :=
  [ "xbox", "game pass", "subscription renewal", "renewal receipt" ]

/-- Is any allowlist phrase present in subject, body or sender? -/
def promoAllowlisted (subject body sender : String) : Bool :=
  PROMO_ALLOWLIST_PATTERNS.any fun pat =>
    strContains subject pat || strContains body pat || strContains sender pat

/-- `PromotionalStrategy.detect`. -/
def promotionalDetect (email : EmailData) : DetectionResult :=
  let (subject, body, sender) := extractEmailFields email
  let text := subject ++ " " ++ body
  if strContains text "subscribe & save" || strContains text "subscription order" then
    { is_match := false }
  else if ["irs", "dmv", "gov"].any (fun gov => strContains sender gov) then
    { is_match := false }
  else if PROMOTIONAL_KEYWORDS.any (fun k => strContains subject k) then
    if promoAllowlisted subject body sender then { is_match := false }
    else
      { is_match := true, confidence := 90,
        reason := some "Promotional keyword in subject",
        matched_by := some "Promotional Strategy" }
  else if PROMOTIONAL_KEYWORDS.any (fun k => strContains body k) then
    if promoAllowlisted subject body sender then { is_match := false }
    else
      { is_match := true, confidence := 80,
        reason := some "Promotional keyword in body",
        matched_by := some "Promotional Strategy" }
  else if MARKETING_PATTERNS.any (fun p => reSearch p subject || reSearch p body) then
    if promoAllowlisted subject body sender then { is_match := false }
    else
      { is_match := true, confidence := 85,
        reason := some "Marketing pattern detected",
        matched_by := some "Promotional Strategy" }
  else if TRACKING_PATTERNS.any (fun p => reSearch p body) then
    { is_match := true, confidence := 70,
      reason := some "Tracking pattern in body",
      matched_by := some "Promotional Strategy" }
  else if DEALS_PATTERNS.any
      (fun p => reSearch p sender || reSearch p subject || reSearch p body) then
    { is_match := true, confidence := 90,
      reason := some "Deal site pattern detected",
      matched_by := some "Promotional Strategy" }
  else { is_match := false }

/-! ## ShippingStrategy (`shipping_strategy.py`) -/

/-- `ShippingStrategy.SHIPPING_EMAIL_PATTERNS` (searched in the sender; the
escaped dots of the source are literal dots). -/
def SHIPPING_EMAIL_PATTERNS : List RE :=
  [ rlit "shipment-tracking@amazon.com", rlit "ship-confirm@amazon.com",
    rlit "shipping@amazon.com", rlit "delivery@amazon.com",
    rlit "tracking@amazon.com", rlit "shipment@amazon.com",
    rlit "logistics@amazon.com", rlit "fulfillment@amazon.com",
    rlit "shipping-", rlit "delivery-", rlit "tracking-", rlit "shipment-",
    rlit "tracking@ups.com", rlit "delivery@fedex.com",
    rlit "tracking@usps.com", rlit "shipment@dhl.com" ]

/-- `ShippingStrategy.SHIPPING_PATTERNS`. -/
def SHIPPING_PATTERNS : List RE :=
  [ rcat [rlit "your", rws1, .star rdot, rws1, ropt (rcat [rlit "has", rws1]),
      rlit "shipped"],
    rcat [rlit "shipped", rws1, rlit "today"],
    rcat [rlit "out", rws1, rlit "for", rws1, rlit "delivery"],
    rlit "delivered",
    rcat [rlit "delivery", rws1, rlit "update"],
    rcat [rlit "package", rws1, rlit "delivered"],
    rcat [rlit "package", rws1, rlit "update"],
    rcat [rlit "shipment", rws1, rlit "notification"],
    rcat [rlit "tracking", rws1, rlit "information"],
    rcat [rlit "track", rws1, rlit "your", rws1, rlit "package"],
    rcat [rlit "delivery", rws1, rlit "notification"],
    rcat [rlit "shipment", rws1, rlit "delivered"],
    rcat [rlit "order", .star rdot, rlit "shipped"],
    rcat [rlit "item", .star rdot, rlit "shipped"],
    rcat [rlit "package", .star rdot, rlit "shipped"],
    rcat [rlit "delivery", rws1, rlit "attempt"],
    rcat [rlit "delivery", rws1, rlit "rescheduled"],
    rcat [rlit "delivery", rws1, rlit "delayed"],
    rcat [rlit "package", rws1, rlit "is", rws1, rlit "on", rws1, rlit "the",
      rws1, rlit "way"],
    rcat [rlit "arriving", rws1, rlit "today"],
    rcat [rlit "arriving", rws1, rlit "tomorrow"],
    rcat [rlit "expected", rws1, rlit "delivery"],
    rcat [rlit "estimated", rws1, rlit "delivery"],
    rcat [rlit "ups", rws1, rlit "delivery"],
    rcat [rlit "fedex", rws1, rlit "delivery"],
    rcat [rlit "usps", rws1, rlit "delivery"],
    rcat [rlit "amazon", rws1, rlit "delivery"],
    rcat [rlit "dhl", rws1, rlit "delivery"],
    rcat [rlit "amazon", .star rdot, rlit "shipment"],
    rcat [rlit "preparing", rws1, rlit "to", rws1, rlit "ship"],
    rcat [rlit "now", rws1, rlit "shipped"],
    rcat [rlit "has", rws1, rlit "been", rws1, rlit "shipped"],
    rcat [rlit "will", rws1, rlit "arrive"] ]

/-- `ShippingStrategy.PURCHASE_INDICATORS`. -/
def PURCHASE_INDICATORS : List RE :=
  [ rcat [rlit "order", rws1, rlit "confirmation"],
    rcat [rlit "purchase", rws1, rlit "confirmation"],
    rcat [rlit "payment", rws1, rlit "confirmation"],
    rlit "receipt",
    rlit "invoice",
    rlit "charged",
    rcat [rlit "payment", rws1, rlit "received"],
    rcat [rlit "total", .star rdot, rchar '$', rplus rdigit],
    rcat [rlit "amount", .star rdot, rchar '$', rplus rdigit],
    rcat [rlit "order", rws1, rlit "total"],
    rlit "subtotal",
    rcat [rlit "tax", .star rdot, rchar '$', rplus rdigit],
    rcat [rlit "order", rws1, rlit "placed"],
    rcat [rlit "thank", rws1, rlit "you", rws1, rlit "for", .star rdot,
      rlit "order"] ]

/-- Purchase indicators over the combined `subject ++ " " ++ body` text, as
computed inside `ShippingStrategy.detect`. -/
def hasPurchaseIndicators (text : String) : Bool :=
  PURCHASE_INDICATORS.any (fun p => reSearch p text)

/-- `ShippingStrategy.detect`. -/
def shippingDetect (email : EmailData) : DetectionResult :=
  let (subject, body, sender) := extractEmailFields email
  let senderMatch := SHIPPING_EMAIL_PATTERNS.any (fun p => reSearch p sender)
  let text := subject ++ " " ++ body
  let hasPurchase := hasPurchaseIndicators text
  if senderMatch && !hasPurchase then
    { is_match := true, confidence := 95,
      reason := some "Shipping sender without purchase indicators",
      matched_by := some "Shipping Strategy" }
  else
    let hasShippingPattern := SHIPPING_PATTERNS.any (fun p => reSearch p text)
    if !hasShippingPattern then { is_match := false }
    else if hasShippingPattern && !hasPurchase then
      { is_match := true, confidence := 90,
        reason := some "Shipping pattern without purchase indicators",
        matched_by := some "Shipping Strategy" }
    else { is_match := false }

/-! ## ReceiptDetector (`detector.py`) -/

/-- Does the result's reason contain the given marker?  (Python
`result.reason and "…" in result.reason`.) -/
def reasonContains (r : DetectionResult) (marker : String) : Bool :=
  match r.reason with
  | none => false
  | some s => strContains s marker

/-- `ReceiptDetector.is_receipt`, generic in the three content strategies.
The fixed short-circuit order of the source is explicit here; instantiating
the strategy arguments yields `is_receipt` itself, and keeping them
universally quantified expresses that a decision taken at an earlier step
does not depend on the later strategies. -/
def isReceiptGen (tx promo ship : EmailData → DetectionResult)
    (email : EmailData) (session : Option RuleDB) : Bool :=
  let manualResult := manualRuleDetect email session
  if manualResult.is_match then true
  else if reasonContains manualResult "Blocked" then false
  else
    let transactionalResult := tx email
    if transactionalResult.is_match then true
    else if reasonContains transactionalResult "Reply or forward" then false
    else if (promo email).is_match then false
    else if (ship email).is_match then false
    else false

/-- `ReceiptDetector.is_receipt` (the session argument carries the manual
rules and preferences; `selfEmails` is the configured own-address list used
by the transactional reply/forward exclusion). -/
def is_receipt (selfEmails : List String) (email : EmailData)
    (session : Option RuleDB) : Bool :=
  isReceiptGen (transactionalDetect selfEmails) promotionalDetect
    shippingDetect email session

/-- `ReceiptDetector.categorize_receipt`. -/
def categorize_receipt (email : EmailData) : String :=
  let sender := pyLower email.sender
  let subject := pyLower email.subject
  if strContains sender "amazon" || strContains sender "aws" then "amazon"
  else if strContains sender "uber" || strContains sender "lyft" then
    "transportation"
  else if ["doordash", "grubhub", "ubereats"].any (strContains sender) then
    "food-delivery"
  else if ["starbucks", "mcdonalds", "subway"].any (strContains sender) then
    "restaurants"
  else if ["walmart", "target", "costco"].any (strContains sender) then
    "retail"
  else if ["netflix", "spotify", "adobe"].any (strContains sender) then
    "subscriptions"
  else if ["paypal", "venmo", "square"].any (strContains sender) then
    "payments"
  else if ["att", "verizon", "comcast", "xfinity", "spectrum"].any
      (strContains sender) then "utilities"
  else if ["cvs", "walgreens", "pharmacy"].any (strContains sender) ||
      strContains subject "prescription" || strContains subject "copay" then
    "healthcare"
  else if ["irs", "dmv", "gov"].any (strContains sender) ||
      strContains subject "tax" || strContains subject "license" then
    "government"
  else "other"

/-! ## Content hashing (`security.get_email_content_hash`)

The source hashes `f"{sender}|{subject}|{normalized_body}"` with SHA-256 and
compares hex digests.  SHA-256 is a fixed deterministic function of that
content string, so equality of digests is modelled by equality of the
content strings themselves (the dedup logic uses the digest only through
equality). -/

/-- Python whitespace (the characters `str.split()` splits on). -/
def isPyWs (c : Char) : Bool :=
  c == ' ' || c == '\t' || c == '\n' || c == '\r' ||
  c == Char.ofNat 11 || c == Char.ofNat 12

/-- Drop everything between `<` and `>` (models
`bleach.clean(raw, tags=[], strip=True)`, which strips all HTML tags). -/
def stripTagsAux : Bool → List Char → List Char
  | _, [] => []
  | inTag, c :: cs =>
    if c == '<' then stripTagsAux true cs
    else if c == '>' then stripTagsAux false cs
    else if inTag then stripTagsAux true cs
    else c :: stripTagsAux false cs

/-- Strip HTML tags from a string. -/
def stripTags (s : String) : String := String.mk (stripTagsAux false s.toList)

/-- Split into whitespace-separated words (Python `str.split()`). -/
def pyWords : List Char → List Char → List String
  | acc, [] => if acc.isEmpty then [] else [String.mk acc.reverse]
  | acc, c :: cs =>
    if isPyWs c then
      if acc.isEmpty then pyWords [] cs
      else String.mk acc.reverse :: pyWords [] cs
    else pyWords (c :: acc) cs

/-- Python `" ".join(s.split())`: collapse runs of whitespace, trim ends. -/
def collapseWs (s : String) : String :=
  String.intercalate " " (pyWords [] s.toList)

/-- Python `str.strip()`. -/
def pyStrip (s : String) : String :=
  String.mk (((s.toList.dropWhile isPyWs).reverse.dropWhile isPyWs).reverse)

/-- `security.get_email_content_hash`, with the SHA-256 digest modelled by
its preimage (see the section comment). -/
def get_email_content_hash (e : EmailData) : String :=
  let sender := pyStrip (pyLower e.sender)
  let subject := pyStrip (pyLower e.subject)
  let rawBody := if e.body ≠ "" then e.body else e.html_body
  let cleanBody := stripTags rawBody
  let normalizedBody := pyLower (collapseWs cleanBody)
  sender ++ "|" ++ subject ++ "|" ++ normalizedBody

/-- `security.encrypt_content`: empty content is stored as the empty string
(not encrypted); `cipher` is the Fernet collaborator. -/
def encrypt_content (cipher : String → String) (content : String) : String :=
  if content = "" then "" else cipher content

/-! ## Persisted records (`backend.models.ProcessedEmail`, fields as used by
the scheduler and the spec's data model; timestamps in minutes) -/

/-- A persisted `ProcessedEmail` row. -/
structure ProcessedEmail where
  email_id : String
  subject : String := ""
  sender : String := ""
  received_at : Int := 0
  processed_at : Int := 0
  status : String := ""
  account_email : String := ""
  category : String := ""
  reason : String := ""
  amount : Option ℚ := none
  content_hash : String := ""
  retention_expires_at : Option Int := none
  encrypted_body : Option String := none
  encrypted_html : Option String := none
deriving DecidableEq, Repr

/-! ## Learning subsystem

`backend/services/learning_service.py` is not part of the source snapshot
(only its tests and its callers are), so the two functions the scheduler
invokes are modelled from the spec. -/

/-- Modelled from the spec: `LearningService.run_shadow_mode` — the source
file `learning_service.py` is missing; per spec §4.3, for every shadow-mode
rule whose declared sender/subject patterns (each optional, all declared
ones must match, as in the manual-rule check) match the current email, the
match count is incremented and the confidence moved toward 1.0 by a bounded
update; the update curve is unspecified and is the parameter `bump`.
Non-matching rules are unchanged. -/
def run_shadow_mode (bump : ℚ → ℚ) (email : EmailData)
    (rules : List ManualRule) : List ManualRule :=
  rules.map fun r =>
    if r.is_shadow_mode &&
        ruleMatches (pyLower email.subject) (pyLower email.sender) r then
      { r with match_count := r.match_count + 1, confidence := bump r.confidence }
    else r

/-- Modelled from the spec: `LearningService.auto_promote_rules` — the
source file `learning_service.py` is missing; per spec §4.3 and
`test_learning_service.test_auto_promotion`, every shadow-mode rule whose
confidence and match count reach the maturity thresholds (a rule with
confidence 0.95 and match count 5 qualifies) is promoted: `is_shadow_mode`
flips to false and the purpose string is suffixed with the automatic-
promotion marker `" (AUTO)"`.  The exact thresholds are the parameters. -/
def auto_promote_rules (confT : ℚ) (countT : Nat)
    (rules : List ManualRule) : List ManualRule :=
  rules.map fun r =>
    if r.is_shadow_mode ∧ confT ≤ r.confidence ∧ countT ≤ r.match_count then
      { r with is_shadow_mode := false,
               purpose := some (pyOr r.purpose "" ++ " (AUTO)") }
    else r

/-! ## The scheduler's per-message loop (`scheduler.process_emails`) -/

/-- The collaborators and configuration a processing run uses (spec §6):
the content cipher, the mail sink, the command handler, the preference
table, the configured own addresses, the shadow-confidence update and the
clock reading. -/
structure SchedCtx where
  cipher : String → String
  forwardOk : EmailData → Bool
  isCommand : EmailData → Bool
  commandOk : EmailData → Bool
  preferences : List Preference
  selfEmails : List String
  bump : ℚ → ℚ
  now : Int

/-- The database state the loop reads and writes: the `ProcessedEmail`
table, the `ManualRule` table, plus the run counters and a log of forward
attempts. -/
structure SchedState where
  records : List ProcessedEmail := []
  rules : List ManualRule := []
  forwardLog : List EmailData := []
  processedCount : Nat := 0
  forwardedCount : Nat := 0

/-- The dedup lookup of the loop: by Message-ID when one is present, then by
content hash. -/
def lookupExisting (st : SchedState) (msg_id content_hash : String) :
    Option ProcessedEmail :=
  let byId :=
    if msg_id ≠ "" then st.records.find? (fun r => r.email_id == msg_id)
    else none
  match byId with
  | some r => some r
  | none => st.records.find? (fun r => r.content_hash == content_hash)

/-- Build the `ProcessedEmail` row the loop persists for a message. -/
def mkProcessedRecord (ctx : SchedCtx) (e : EmailData)
    (content_hash status category reason account_email : String) :
    ProcessedEmail :=
  { email_id := if e.message_id ≠ "" then e.message_id else "unknown",
    subject := e.subject,
    sender := e.sender,
    received_at := ctx.now,
    processed_at := ctx.now,
    status := status,
    account_email := account_email,
    category := category,
    reason := reason,
    content_hash := content_hash,
    retention_expires_at := some (ctx.now + 24 * 60),
    encrypted_body := some (encrypt_content ctx.cipher e.body),
    encrypted_html := some (encrypt_content ctx.cipher e.html_body) }

/-- One iteration of the message loop of `process_emails` (lines 214–326):
dedup lookup, command handling, detection, shadow learning, forwarding and
persistence.  Failure-free executions are modelled; a per-message exception
rolls the message back and leaves the state as before the iteration. -/
def processMessage (ctx : SchedCtx) (st : SchedState) (e : EmailData) :
    SchedState :=
  let content_hash := get_email_content_hash e
  match lookupExisting st e.message_id content_hash with
  | some _ => st
  | none =>
    let st1 := { st with processedCount := st.processedCount + 1 }
    let account_email := if e.account_email ≠ "" then e.account_email else "unknown"
    if ctx.isCommand e then
      let ok := ctx.commandOk e
      let status := if ok then "command_executed" else "ignored"
      let reason := if ok then "User command" else "Command from wife (no action)"
      { st1 with records := st1.records ++
          [mkProcessedRecord ctx e content_hash status "command" reason account_email] }
    else
      let db : RuleDB := { manual_rules := st1.rules, preferences := ctx.preferences }
      let isr := is_receipt ctx.selfEmails e (some db)
      let category := categorize_receipt e
      let st2 := { st1 with rules := run_shadow_mode ctx.bump e st1.rules }
      if isr then
        let success := ctx.forwardOk e
        let status := if success then "forwarded" else "error"
        let reason := if success then "Detected as receipt" else "SMTP Error"
        { st2 with
          forwardLog := st2.forwardLog ++ [e],
          forwardedCount := st2.forwardedCount + (if success then 1 else 0),
          records := st2.records ++
            [mkProcessedRecord ctx e content_hash status category reason account_email] }
      else
        { st2 with records := st2.records ++
            [mkProcessedRecord ctx e content_hash "ignored" category "Not a receipt" account_email] }

/-- The message loop over a fetched batch. -/
def processMessages (ctx : SchedCtx) (st : SchedState)
    (emails : List EmailData) : SchedState :=
  emails.foldl (processMessage ctx) st

/-- A full run over one fetched batch, record- and rule-wise: the message
loop followed by the end-of-run auto-promotion (scheduler line 355). -/
def processRunMessages (ctx : SchedCtx) (confT : ℚ) (countT : Nat)
    (st : SchedState) (emails : List EmailData) : SchedState :=
  let st1 := processMessages ctx st emails
  { st1 with rules := auto_promote_rules confT countT st1.rules }

/-! ## Run bookkeeping and the overlap guard (`process_emails`, lines 50–94) -/

/-- A `ProcessingRun` row. -/
structure ProcessingRun where
  id : Nat
  started_at : Int
  completed_at : Option Int := none
  check_interval_minutes : Int := 0
  status : String
  error_message : Option String := none
  emails_checked : Nat := 0
  emails_processed : Nat := 0
  emails_forwarded : Nat := 0
deriving DecidableEq, Repr

/-- The autoincrement id the insert receives. -/
def freshRunId (table : List ProcessingRun) : Nat :=
  table.foldl (fun m r => max m r.id) 0 + 1

/-- Create the run row with status `"running"` (lines 52–61). -/
def createRun (now interval : Int) (table : List ProcessingRun) :
    List ProcessingRun × Nat :=
  let rid := freshRunId table
  (table ++ [{ id := rid, started_at := now,
               check_interval_minutes := interval, status := "running" }], rid)

/-- The overlap query (lines 71–77): another row with status `"running"`
started within the last 5 minutes, excluding the current run. -/
def overlapCheck (now : Int) (runId : Nat) (table : List ProcessingRun) :
    Option ProcessingRun :=
  table.find? fun r =>
    r.status == "running" && decide (now - 5 < r.started_at) && r.id ≠ runId

/-- Finalize the current run as skipped, naming the conflicting run
(lines 84–90). -/
def markSkipped (now : Int) (rid activeId : Nat)
    (table : List ProcessingRun) : List ProcessingRun :=
  table.map fun r =>
    if r.id = rid then
      { r with status := "skipped",
               error_message := some ("Overlap with Run " ++ toString activeId),
               completed_at := some now }
    else r

/-- The run-creation and overlap-guard prefix of `process_emails`: returns
the updated run table and whether the run proceeds to fetch mailboxes and
process messages (`false` = it returned before any fetching).  `now0` is the
clock at row creation, `now1` at the guard check. -/
def processEmailsGuard (now0 now1 interval : Int)
    (table : List ProcessingRun) : List ProcessingRun × Bool :=
  let created := createRun now0 interval table
  match overlapCheck now1 created.2 created.1 with
  | some active => (markSkipped now1 created.2 active.id created.1, false)
  | none => (created.1, true)

/-! ## Retention cleanup (`scheduler.cleanup_expired_emails`) -/

/-- The cleanup query filter: `retention_expires_at < now` (a row with no
expiry is never selected). -/
def retentionExpired (now : Int) (r : ProcessedEmail) : Bool :=
  match r.retention_expires_at with
  | some t => decide (t < now)
  | none => false

/-- The per-row cleanup action: rows selected by the query whose encrypted
body or html is truthy have both nulled; every other row is untouched. -/
def cleanupStep (now : Int) (r : ProcessedEmail) : ProcessedEmail :=
  if retentionExpired now r && (otruthy r.encrypted_body || otruthy r.encrypted_html)
  then { r with encrypted_body := none, encrypted_html := none }
  else r

/-- `cleanup_expired_emails` over the `ProcessedEmail` table. -/
def cleanup_expired_emails (now : Int) (records : List ProcessedEmail) :
    List ProcessedEmail :=
  records.map (cleanupStep now)

/-! ## Derived notions used by the claim statements -/

/-- A persisted record "is for" a message when it carries exactly the keys
the loop persists for it: the stored message id (`msg_id or "unknown"`) and
the content hash of the message. -/
def isRecordFor (e : EmailData) (r : ProcessedEmail) : Bool :=
  r.email_id == (if e.message_id ≠ "" then e.message_id else "unknown") &&
  r.content_hash == get_email_content_hash e

/-- How many persisted records exist for a message. -/
def countRecordsFor (st : SchedState) (e : EmailData) : Nat :=
  (st.records.filter (isRecordFor e)).length

/-- How many forward attempts were made for a message. -/
def countForwards (st : SchedState) (e : EmailData) : Nat :=
  (st.forwardLog.filter (fun x => x = e)).length

/-- The uniqueness invariant of the record store, as the code maintains it:
two distinct records never share a content hash, and never share a stored
message id unless that id is the `"unknown"` sentinel used for messages
that arrive without a Message-ID. -/
def recordsUnique (records : List ProcessedEmail) : Prop :=
  records.Pairwise fun a b =>
    (a.email_id = b.email_id → a.email_id = "unknown") ∧
    a.content_hash ≠ b.content_hash

/-- The record-uniqueness claim exactly as the spec states it: no two
records share a stored message id (with no carve-out for records created
for messages lacking a Message-ID), and no two share a content hash. -/
def recordsUniqueStated (records : List ProcessedEmail) : Prop :=
  records.Pairwise fun a b =>
    a.email_id ≠ b.email_id ∧ a.content_hash ≠ b.content_hash

/-- A plain collaborator context for concrete executions: identity cipher,
failing sink, no commands, no preferences, constant confidence update. -/
def plainCtx : SchedCtx where
  cipher := fun s => s
  forwardOk := fun _ => false
  isCommand := fun _ => false
  commandOk := fun _ => false
  preferences := []
  selfEmails := []
  bump := fun q => q
  now := 0

/-! ## Helper lemmas -/

theorem listContains_nil_needle (m : List Char) : listContains m [] = true := by
  cases m <;> simp [listContains, List.isPrefixOf]

theorem isPrefixOf_append_of_isPrefixOf (n l m : List Char)
    (h : n.isPrefixOf l = true) : n.isPrefixOf (l ++ m) = true := by
  rw [List.isPrefixOf_iff_prefix] at h ⊢
  exact h.trans (List.prefix_append l m)

theorem listContains_append_left (l m n : List Char)
    (h : listContains l n = true) : listContains (l ++ m) n = true := by
  induction l with
  | nil =>
      simp only [listContains, List.isEmpty_iff] at h
      subst h
      simpa using listContains_nil_needle m
  | cons c t ih =>
      rw [List.cons_append]
      simp only [listContains, Bool.or_eq_true] at h ⊢
      rcases h with h1 | h2
      · exact Or.inl (isPrefixOf_append_of_isPrefixOf n (c :: t) m h1)
      · exact Or.inr (ih h2)

theorem listContains_append_right (l m n : List Char)
    (h : listContains m n = true) : listContains (l ++ m) n = true := by
  induction l with
  | nil => simpa
  | cons c t ih =>
      rw [List.cons_append]
      simp only [listContains, Bool.or_eq_true]
      exact Or.inr ih

theorem strContains_append_left (a b n : String)
    (h : strContains a n = true) : strContains (a ++ b) n = true := by
  unfold strContains at h ⊢
  rw [show (a ++ b).toList = a.toList ++ b.toList from String.data_append a b]
  exact listContains_append_left _ _ _ h

theorem strContains_append_right (a b n : String)
    (h : strContains b n = true) : strContains (a ++ b) n = true := by
  unfold strContains at h ⊢
  rw [show (a ++ b).toList = a.toList ++ b.toList from String.data_append a b]
  exact listContains_append_right _ _ _ h

theorem mem_insertByPriorityDesc (a r : ManualRule) (l : List ManualRule) :
    a ∈ insertByPriorityDesc r l ↔ a = r ∨ a ∈ l := by
  induction l with
  | nil => simp [insertByPriorityDesc]
  | cons x xs ih =>
      simp only [insertByPriorityDesc]
      split
      · simp [List.mem_cons]
      · simp only [List.mem_cons, ih]
        tauto

theorem mem_rulesByPriorityDesc (a : ManualRule) (l : List ManualRule) :
    a ∈ rulesByPriorityDesc l ↔ a ∈ l := by
  induction l with
  | nil => simp [rulesByPriorityDesc]
  | cons x xs ih => simp [rulesByPriorityDesc, mem_insertByPriorityDesc, ih]

theorem foldl_max_init_le (l : List ProcessingRun) (a : Nat) :
    a ≤ l.foldl (fun m r => max m r.id) a := by
  induction l generalizing a with
  | nil => simp
  | cons x xs ih => exact le_trans (le_max_left a x.id) (ih (max a x.id))

theorem mem_id_le_foldl_max (l : List ProcessingRun) (a : Nat)
    (r : ProcessingRun) (h : r ∈ l) :
    r.id ≤ l.foldl (fun m r => max m r.id) a := by
  induction l generalizing a with
  | nil => cases h
  | cons x xs ih =>
      rcases List.mem_cons.mp h with rfl | h'
      · exact le_trans (le_max_right a r.id) (foldl_max_init_le xs (max a r.id))
      · exact ih (max a x.id) h'

theorem mem_id_lt_freshRunId (table : List ProcessingRun) (r : ProcessingRun)
    (h : r ∈ table) : r.id < freshRunId table := by
  have := mem_id_le_foldl_max table 0 r h
  unfold freshRunId
  omega

/-! ## Claim theorems -/

/-- **C4.** For every email, if any purchase-indicator pattern matches the
combined subject and body, `ShippingStrategy.detect` returns
`matched = false`: the purchase indicators suppress both the
shipping-sender branch and the shipping-language branch. -/
theorem shipping_suppressed_by_purchase_indicators (email : EmailData)
    (h : hasPurchaseIndicators
      (pyLower email.subject ++ " " ++ pyLower email.body) = true) :
    (shippingDetect email).is_match = false := by
  unfold shippingDetect
  simp only [extractEmailFields, h, Bool.not_true, Bool.and_false, if_false]
  split <;> simp_all

/-- Witness: a shipping-sender email whose body carries a purchase
indicator is not matched by the shipping strategy. -/
theorem shipping_suppressed_by_purchase_indicators_witness :
    hasPurchaseIndicators (pyLower "shipped" ++ " " ++ pyLower "receipt") = true ∧
    (shippingDetect { subject := "shipped", body := "receipt", sender := "shipping-x@a.com" }).is_match = false :=
  ⟨by decide,
   shipping_suppressed_by_purchase_indicators
     { subject := "shipped", body := "receipt", sender := "shipping-x@a.com" }
     (by decide)⟩

/-- **C8 (amended).** After a cleanup pass, every record whose
`retention_expires_at` is in the past *and whose stored encrypted body or
html is non-empty* has both encrypted fields nulled while every other field
is unchanged; a record whose retention has not expired — or whose stored
encrypted content is absent or empty, which the source's truthiness guard
skips — is left entirely unchanged. -/
theorem cleanup_retention_frame (now : Int) (records : List ProcessedEmail)
    (i : Nat) (r : ProcessedEmail) (h : records.get? i = some r) :
    (cleanup_expired_emails now records).get? i = some (cleanupStep now r) ∧
    (retentionExpired now r = true →
      (otruthy r.encrypted_body || otruthy r.encrypted_html) = true →
      (cleanupStep now r).encrypted_body = none ∧
      (cleanupStep now r).encrypted_html = none ∧
      (cleanupStep now r).status = r.status ∧
      (cleanupStep now r).category = r.category ∧
      (cleanupStep now r).amount = r.amount ∧
      (cleanupStep now r).subject = r.subject ∧
      (cleanupStep now r).sender = r.sender ∧
      (cleanupStep now r).received_at = r.received_at ∧
      (cleanupStep now r).processed_at = r.processed_at ∧
      (cleanupStep now r).content_hash = r.content_hash ∧
      (cleanupStep now r).email_id = r.email_id ∧
      (cleanupStep now r).account_email = r.account_email ∧
      (cleanupStep now r).reason = r.reason ∧
      (cleanupStep now r).retention_expires_at = r.retention_expires_at) ∧
    (retentionExpired now r = false → cleanupStep now r = r) ∧
    ((otruthy r.encrypted_body || otruthy r.encrypted_html) = false →
      cleanupStep now r = r) := by
  refine ⟨?_, ?_, ?_, ?_⟩
  · unfold cleanup_expired_emails
    rw [List.get?_map, h]
    rfl
  · intro h1 h2
    unfold cleanupStep
    rw [h1, h2]
    simp
  · intro h1
    unfold cleanupStep
    rw [h1]
    simp
  · intro h2
    unfold cleanupStep
    rw [h2]
    simp

/-- Witness: a single-row table whose record is expired and carries
non-empty encrypted content gets its body nulled with the status intact. -/
theorem cleanup_retention_frame_witness :
    ([{ email_id := "m", status := "forwarded", retention_expires_at := some 0, encrypted_body := some "x", encrypted_html := some "y" }] : List ProcessedEmail).get? 0 = some { email_id := "m", status := "forwarded", retention_expires_at := some 0, encrypted_body := some "x", encrypted_html := some "y" } ∧
    retentionExpired 1 { email_id := "m", status := "forwarded", retention_expires_at := some 0, encrypted_body := some "x", encrypted_html := some "y" } = true ∧
    (cleanupStep 1 { email_id := "m", status := "forwarded", retention_expires_at := some 0, encrypted_body := some "x", encrypted_html := some "y" }).encrypted_body = none ∧
    (cleanupStep 1 { email_id := "m", status := "forwarded", retention_expires_at := some 0, encrypted_body := some "x", encrypted_html := some "y" }).status = "forwarded" := by
  refine ⟨rfl, by decide, ?_, ?_⟩
  · exact ((cleanup_retention_frame 1 [{ email_id := "m", status := "forwarded", retention_expires_at := some 0, encrypted_body := some "x", encrypted_html := some "y" }] 0 _ rfl).2.1 (by decide) (by decide)).1
  · exact ((cleanup_retention_frame 1 [{ email_id := "m", status := "forwarded", retention_expires_at := some 0, encrypted_body := some "x", encrypted_html := some "y" }] 0 _ rfl).2.1 (by decide) (by decide)).2.2.1

/-- **C8 counterexample.** The claim as stated fails: a record past its
retention whose stored encrypted body and html are both the *empty string*
(exactly what the scheduler persists for a message with empty body and
html) is skipped by the cleanup's truthiness guard, so after the pass its
encrypted fields are still the empty string, not null. -/
theorem cleanup_retention_counterexample :
    retentionExpired 1 { email_id := "m", retention_expires_at := some 0, encrypted_body := some "", encrypted_html := some "" } = true ∧
    cleanup_expired_emails 1 [{ email_id := "m", retention_expires_at := some 0, encrypted_body := some "", encrypted_html := some "" }] = [{ email_id := "m", retention_expires_at := some 0, encrypted_body := some "", encrypted_html := some "" }] ∧
    some "" ≠ (none : Option String) := by
  refine ⟨by decide, ?_, by decide⟩
  decide

/-- **C7.** Whenever an execution of `process_emails`, after creating its
own run row, observes another `ProcessingRun` row with status `"running"`
started within the last 5 minutes (excluding itself), the new run is
finalized with status `"skipped"` and an error message naming the
conflicting run, and the execution returns before any mailbox fetching or
message processing (the returned flag is `false`). -/
theorem overlap_guard_skips (now0 now1 interval : Int)
    (table : List ProcessingRun) (active : ProcessingRun)
    (h : overlapCheck now1 (createRun now0 interval table).2
          (createRun now0 interval table).1 = some active) :
    (processEmailsGuard now0 now1 interval table).2 = false ∧
    (∃ r ∈ (processEmailsGuard now0 now1 interval table).1,
       r.id = freshRunId table) ∧
    ∀ r ∈ (processEmailsGuard now0 now1 interval table).1,
      r.id = freshRunId table →
      r.status = "skipped" ∧
      r.error_message = some ("Overlap with Run " ++ toString active.id) ∧
      r.completed_at = some now1 := by
  have hguard : processEmailsGuard now0 now1 interval table =
      (List.map
        (fun r => if r.id = freshRunId table then
          { r with status := "skipped",
                   error_message := some ("Overlap with Run " ++ toString active.id),
                   completed_at := some now1 }
          else r)
        (table ++ [{ id := freshRunId table, started_at := now0,
                     check_interval_minutes := interval, status := "running" }]), false) := by
    simp only [processEmailsGuard]
    rw [h]
    rfl
  rw [hguard]
  refine ⟨rfl, ?_, ?_⟩
  · refine ⟨_, List.mem_map.mpr ⟨{ id := freshRunId table, started_at := now0, check_interval_minutes := interval, status := "running" }, List.mem_append_right _ (List.mem_singleton.mpr rfl), rfl⟩, ?_⟩
    rw [if_pos rfl]
  · intro r hr hid
    obtain ⟨x, hx, hfx⟩ := List.mem_map.mp hr
    rcases List.mem_append.mp hx with hmem | hone
    · have hlt := mem_id_lt_freshRunId table x hmem
      by_cases hc : x.id = freshRunId table
      · omega
      · rw [if_neg hc] at hfx
        subst hfx
        exact absurd hid hc
    · have hxeq : x = { id := freshRunId table, started_at := now0, check_interval_minutes := interval, status := "running" } := by simpa using hone
      subst hxeq
      rw [if_pos rfl] at hfx
      subst hfx
      exact ⟨rfl, rfl, rfl⟩

/-- Witness: with one 3-minute-old running run in the table, a new run at
time 3 is skipped with the conflicting run named. -/
theorem overlap_guard_skips_witness :
    overlapCheck 3 (createRun 3 1 [{ id := 7, started_at := 0, status := "running" }]).2 (createRun 3 1 [{ id := 7, started_at := 0, status := "running" }]).1 = some { id := 7, started_at := 0, status := "running" } ∧
    (processEmailsGuard 3 3 1 [{ id := 7, started_at := 0, status := "running" }]).2 = false ∧
    (∀ r ∈ (processEmailsGuard 3 3 1 [{ id := 7, started_at := 0, status := "running" }]).1,
      r.id = freshRunId [{ id := 7, started_at := 0, status := "running" }] →
      r.status = "skipped" ∧
      r.error_message = some ("Overlap with Run " ++ toString (7 : Nat)) ∧
      r.completed_at = some 3) := by
  have h : overlapCheck 3 (createRun 3 1 [{ id := 7, started_at := 0, status := "running" }]).2 (createRun 3 1 [{ id := 7, started_at := 0, status := "running" }]).1 = some { id := 7, started_at := 0, status := "running" } := by decide
  refine ⟨h, (overlap_guard_skips 3 3 1 _ _ h).1, ?_⟩
  exact (overlap_guard_skips 3 3 1 _ _ h).2.2

/-- A detection result whose reason mentions "Blocked" and is not a match
forces `isReceiptGen` to return false regardless of the three content
strategies. -/
theorem isReceiptGen_false_of_blocked (tx promo ship : EmailData → DetectionResult)
    (email : EmailData) (session : Option RuleDB)
    (h1 : (manualRuleDetect email session).is_match = false)
    (h2 : reasonContains (manualRuleDetect email session) "Blocked" = true) :
    isReceiptGen tx promo ship email session = false := by
  simp only [isReceiptGen]
  rw [h1, h2]
  simp

/-- **C10.** A manual rule that declares neither a (truthy) sender pattern
nor a (truthy) subject pattern matches every email, so when a session is
provided and such a rule exists, `is_receipt` returns true for every email
— the manual-rule check precedes the blocked-preference check, so this
holds even when a blocked preference matches the email. -/
theorem catch_all_manual_rule (selfEmails : List String) (email : EmailData)
    (db : RuleDB) (rule : ManualRule) (hmem : rule ∈ db.manual_rules)
    (he : otruthy rule.email_pattern = false)
    (hs : otruthy rule.subject_pattern = false) :
    is_receipt selfEmails email (some db) = true := by
  have hmatch : ruleMatches (pyLower email.subject) (pyLower email.sender) rule = true := by
    unfold ruleMatches
    rw [he, hs]
    rfl
  have hsome : (checkManualRules (pyLower email.subject) (pyLower email.sender) db).isSome = true := by
    unfold checkManualRules
    rw [List.find?_isSome]
    exact ⟨rule, (mem_rulesByPriorityDesc _ _).mpr hmem, hmatch⟩
  obtain ⟨r, hr⟩ := Option.isSome_iff_exists.mp hsome
  have hman : manualRuleDetect email (some db) =
      { is_match := true, confidence := 100,
        reason := some ("Manual rule match: " ++ pyOr r.purpose "No purpose"),
        matched_by := some "Manual Rule" } := by
    simp only [manualRuleDetect, extractEmailFields, hr]
  simp only [is_receipt, isReceiptGen, hman]
  simp

/-- Witness: a rule with no patterns plus a blocked preference matching the
sender — the rule wins and the email is accepted. -/
theorem catch_all_manual_rule_witness :
    (({} : ManualRule) ∈ ({ manual_rules := [{}], preferences := [{ type := "Blocked Sender", item := "spam.com" }] } : RuleDB).manual_rules) ∧
    otruthy ({} : ManualRule).email_pattern = false ∧
    otruthy ({} : ManualRule).subject_pattern = false ∧
    (blockedMatch (pyLower "hi") (pyLower "offers@spam.com") { manual_rules := [{}], preferences := [{ type := "Blocked Sender", item := "spam.com" }] }).isSome = true ∧
    is_receipt [] { subject := "hi", sender := "offers@spam.com" } (some { manual_rules := [{}], preferences := [{ type := "Blocked Sender", item := "spam.com" }] }) = true := by
  refine ⟨by decide, by decide, by decide, by decide, ?_⟩
  exact catch_all_manual_rule [] { subject := "hi", sender := "offers@spam.com" } _ {} (by decide) (by decide) (by decide)

/-- **C1.** If no manual rule matches, no "Always Forward" preference
matches, but some blocked preference (type "Blocked Sender" or "Blocked
Category") has its item as a case-insensitive substring of the email's
sender or subject, then `is_receipt` returns false — and, since `isReceiptGen`
is quantified over all three content strategies, the Transactional,
Promotional and Shipping strategies cannot affect this outcome (the email
itself, including any strongly transactional content, is arbitrary). -/
theorem blocked_preference_veto (selfEmails : List String) (email : EmailData)
    (db : RuleDB)
    (hrule : checkManualRules (pyLower email.subject) (pyLower email.sender) db = none)
    (haf : alwaysForwardMatch (pyLower email.subject) (pyLower email.sender) db = none)
    (hbl : (blockedMatch (pyLower email.subject) (pyLower email.sender) db).isSome = true) :
    is_receipt selfEmails email (some db) = false ∧
    ∀ tx promo ship : EmailData → DetectionResult,
      isReceiptGen tx promo ship email (some db) = false := by
  obtain ⟨pref, hpref⟩ := Option.isSome_iff_exists.mp hbl
  have hman : manualRuleDetect email (some db) =
      { is_match := false, confidence := 100,
        reason := some ("Preference match (Blocked): " ++ maskText pref.item),
        matched_by := some "Blocked Preference" } := by
    simp only [manualRuleDetect, extractEmailFields, hrule, haf, hpref]
  have h1 : (manualRuleDetect email (some db)).is_match = false := by
    rw [hman]
  have h2 : reasonContains (manualRuleDetect email (some db)) "Blocked" = true := by
    rw [hman]
    unfold reasonContains
    exact strContains_append_left _ _ _ (by decide)
  exact ⟨isReceiptGen_false_of_blocked _ _ _ _ _ h1 h2,
         fun tx promo ship => isReceiptGen_false_of_blocked tx promo ship _ _ h1 h2⟩

/-- Witness: a blocked-sender preference on `spam.com` vetoes an email that
carries strong transactional indicators. -/
theorem blocked_preference_veto_witness :
    checkManualRules (pyLower "payment receipt") (pyLower "offers@spam.com") { preferences := [{ type := "Blocked Sender", item := "spam.com" }] } = none ∧
    alwaysForwardMatch (pyLower "payment receipt") (pyLower "offers@spam.com") { preferences := [{ type := "Blocked Sender", item := "spam.com" }] } = none ∧
    (blockedMatch (pyLower "payment receipt") (pyLower "offers@spam.com") { preferences := [{ type := "Blocked Sender", item := "spam.com" }] }).isSome = true ∧
    hasStrongReceiptIndicators (pyLower "payment receipt") (pyLower "total: $9.99") = true ∧
    is_receipt [] { subject := "payment receipt", body := "total: $9.99", sender := "offers@spam.com" } (some { preferences := [{ type := "Blocked Sender", item := "spam.com" }] }) = false := by
  refine ⟨by decide, by decide, by decide, by decide, ?_⟩
  exact (blocked_preference_veto [] { subject := "payment receipt", body := "total: $9.99", sender := "offers@spam.com" } { preferences := [{ type := "Blocked Sender", item := "spam.com" }] } (by decide) (by decide) (by decide)).1

/-- **C2.** If the lower-cased subject starts with a reply/forward marker
(the source's `REPLY_PATTERNS`: `re:`, `fwd:`/`fw:`, `forward:`, `[fwd]`,
`(fwd)`), and no manual rule and no "Always Forward" preference matches,
then `is_receipt` returns false regardless of the email's body content —
and, since the final conjunct quantifies over the Promotional and Shipping
strategies, those two strategies are never consulted for the outcome. -/
theorem reply_forward_excluded (selfEmails : List String) (email : EmailData)
    (session : Option RuleDB)
    (hrep : REPLY_PATTERNS.any (fun r => reMatchPrefix r (pyLower email.subject)) = true)
    (hm : ∀ db, session = some db →
      checkManualRules (pyLower email.subject) (pyLower email.sender) db = none)
    (ha : ∀ db, session = some db →
      alwaysForwardMatch (pyLower email.subject) (pyLower email.sender) db = none) :
    is_receipt selfEmails email session = false ∧
    ∀ promo ship : EmailData → DetectionResult,
      isReceiptGen (transactionalDetect selfEmails) promo ship email session = false := by
  have hrf : isReplyOrForward selfEmails (pyLower email.subject) (pyLower email.sender) = true := by
    unfold isReplyOrForward
    rw [hrep]
    rfl
  have htx : transactionalDetect selfEmails email =
      { is_match := false, confidence := 100,
        reason := some "Reply or forward email",
        matched_by := some "Transactional Strategy" } := by
    unfold transactionalDetect
    simp only [extractEmailFields, hrf]
    rfl
  have key : ∀ promo ship : EmailData → DetectionResult,
      isReceiptGen (transactionalDetect selfEmails) promo ship email session = false := by
    intro promo ship
    cases session with
    | none =>
        simp only [isReceiptGen, manualRuleDetect, htx]
        simp [reasonContains]
    | some db =>
        have h1 := hm db rfl
        have h2 := ha db rfl
        cases hb : blockedMatch (pyLower email.subject) (pyLower email.sender) db with
        | none =>
            have hman : manualRuleDetect email (some db) = { is_match := false } := by
              simp only [manualRuleDetect, extractEmailFields, h1, h2, hb]
            simp only [isReceiptGen, hman, htx]
            simp [reasonContains]
        | some pref =>
            have hman : manualRuleDetect email (some db) =
                { is_match := false, confidence := 100,
                  reason := some ("Preference match (Blocked): " ++ maskText pref.item),
                  matched_by := some "Blocked Preference" } := by
              simp only [manualRuleDetect, extractEmailFields, h1, h2, hb]
            have hbl : reasonContains (manualRuleDetect email (some db)) "Blocked" = true := by
              rw [hman]
              unfold reasonContains
              exact strContains_append_left _ _ _ (by decide)
            simp only [isReceiptGen, hman] at hbl ⊢
            simp [hbl]
  exact ⟨key promotionalDetect shippingDetect, key⟩

/-- Witness: a "Re:" subject over a receipt-like body is excluded, with an
empty rule context. -/
theorem reply_forward_excluded_witness :
    REPLY_PATTERNS.any (fun r => reMatchPrefix r (pyLower "Re: receipt")) = true ∧
    is_receipt [] { subject := "Re: receipt", body := "total: $9.99" } (some {}) = false := by
  refine ⟨by decide, ?_⟩
  exact (reply_forward_excluded [] { subject := "Re: receipt", body := "total: $9.99" } (some {}) (by decide) (by intro db hdb; cases hdb; decide) (by intro db hdb; cases hdb; decide)).1

/-- The weighted-indicator fold as an explicit sum. -/
theorem foldl_score_eq (l : List (Pat × Nat)) (text : String) (acc : Nat) :
    l.foldl (fun score pw => if pw.1.search text then score + pw.2 else score) acc
      = acc + (l.map fun pw => if pw.1.search text then pw.2 else 0).sum := by
  induction l generalizing acc with
  | nil => simp
  | cons p ps ih =>
      rw [List.foldl_cons, List.map_cons, List.sum_cons, ih]
      cases h : p.1.search text <;> simp [h] <;> omega

/-- **C3.** For an email that is neither excluded as a reply/forward nor
carries strong receipt indicators, the Transactional strategy computes the
weighted indicator score with the listed weights — order number +2,
currency amount +2, thank-you-for-your-order +2, invoice number +2, each
weak keyword (`transaction`, `payment`, `billing`, `statement`, `account
balance`, `due date`, `autopay`, `direct debit`) +1, leading `ordered:` +2
— over `subject ++ " " ++ body ++ " " ++ sender`; a score of at least 3
yields `matched = true` with confidence `min (score * 20) 100`, and a score
below 3 with the known-sender-with-confirmation branch not firing yields
`matched = false`. -/
theorem transactional_weighted_score (selfEmails : List String)
    (email : EmailData)
    (hnr : isReplyOrForward selfEmails (pyLower email.subject) (pyLower email.sender) = false)
    (hns : hasStrongReceiptIndicators (pyLower email.subject) (pyLower email.body) = false) :
    (∀ s b d : String,
      calcTransactionalScore s b d =
        (if reSearch (numberedRefRE "order" 6) (s ++ " " ++ b ++ " " ++ d) then 2 else 0) +
        (if reSearch currencyRE (s ++ " " ++ b ++ " " ++ d) then 2 else 0) +
        (if reSearch thankYouRE (s ++ " " ++ b ++ " " ++ d) then 2 else 0) +
        (if reSearch (numberedRefRE "invoice" 6) (s ++ " " ++ b ++ " " ++ d) then 2 else 0) +
        (if reSearch (rlit "transaction") (s ++ " " ++ b ++ " " ++ d) then 1 else 0) +
        (if reSearch (rlit "payment") (s ++ " " ++ b ++ " " ++ d) then 1 else 0) +
        (if reSearch (rlit "billing") (s ++ " " ++ b ++ " " ++ d) then 1 else 0) +
        (if reSearch (rlit "statement") (s ++ " " ++ b ++ " " ++ d) then 1 else 0) +
        (if reSearch (rcat [rlit "account", rws0, rlit "balance"]) (s ++ " " ++ b ++ " " ++ d) then 1 else 0) +
        (if reSearch (rcat [rlit "due", rws0, rlit "date"]) (s ++ " " ++ b ++ " " ++ d) then 1 else 0) +
        (if reSearch (rlit "autopay") (s ++ " " ++ b ++ " " ++ d) then 1 else 0) +
        (if reSearch (rcat [rlit "direct", rws0, rlit "debit"]) (s ++ " " ++ b ++ " " ++ d) then 1 else 0) +
        (if reMatchPrefix (rlit "ordered:") (s ++ " " ++ b ++ " " ++ d) then 2 else 0)) ∧
    (3 ≤ calcTransactionalScore (pyLower email.subject) (pyLower email.body) (pyLower email.sender) →
      (transactionalDetect selfEmails email).is_match = true ∧
      (transactionalDetect selfEmails email).confidence =
        min (calcTransactionalScore (pyLower email.subject) (pyLower email.body) (pyLower email.sender) * 20) 100) ∧
    (calcTransactionalScore (pyLower email.subject) (pyLower email.body) (pyLower email.sender) < 3 →
      (isKnownReceiptSender (pyLower email.sender) &&
        hasTransactionConfirmation (pyLower email.subject) (pyLower email.body)) = false →
      (transactionalDetect selfEmails email).is_match = false) := by
  refine ⟨?_, ?_, ?_⟩
  · intro s b d
    unfold calcTransactionalScore
    rw [foldl_score_eq]
    simp only [TRANSACTION_INDICATORS, List.map_cons, List.map_nil,
      List.sum_cons, List.sum_nil, Pat.search, if_false, Bool.false_eq_true,
      ite_false, ite_true]
    omega
  · intro h3
    unfold transactionalDetect
    simp only [extractEmailFields, hnr, hns, Bool.false_eq_true, if_false]
    rw [if_pos h3]
    exact ⟨rfl, rfl⟩
  · intro h3 hkc
    unfold transactionalDetect
    simp only [extractEmailFields, hnr, hns, Bool.false_eq_true, if_false]
    rw [if_neg (by omega)]
    simp [hkc]

/-- Witness: subject `"payment billing statement"` scores 1+1+1 = 3 with no
strong indicators and no reply marker, so the strategy matches with
confidence `min (3*20) 100 = 60`. -/
theorem transactional_weighted_score_witness :
    isReplyOrForward [] (pyLower "payment billing statement") (pyLower "") = false ∧
    hasStrongReceiptIndicators (pyLower "payment billing statement") (pyLower "") = false ∧
    calcTransactionalScore (pyLower "payment billing statement") (pyLower "") (pyLower "") = 3 ∧
    (transactionalDetect [] { subject := "payment billing statement" }).is_match = true ∧
    (transactionalDetect [] { subject := "payment billing statement" }).confidence =
      min (calcTransactionalScore (pyLower "payment billing statement") (pyLower "") (pyLower "") * 20) 100 := by
  refine ⟨by decide, by decide, by decide, ?_, ?_⟩
  · exact ((transactional_weighted_score [] { subject := "payment billing statement" } (by decide) (by decide)).2.1 (by decide)).1
  · exact ((transactional_weighted_score [] { subject := "payment billing statement" } (by decide) (by decide)).2.1 (by decide)).2

/-- If the dedup lookup finds an existing record, the loop iteration leaves
the state untouched. -/
theorem processMessage_of_found (ctx : SchedCtx) (st : SchedState)
    (e : EmailData)
    (h : (lookupExisting st e.message_id (get_email_content_hash e)).isSome = true) :
    processMessage ctx st e = st := by
  obtain ⟨r, hr⟩ := Option.isSome_iff_exists.mp h
  simp only [processMessage, hr]

/-- If the dedup lookup finds nothing, the loop iteration appends exactly
one record, whose stored id and content hash are the message's keys; the
forward log is either untouched or extended by this message, and the rule
table is either untouched or shadow-updated for this message. -/
theorem processMessage_inserted (ctx : SchedCtx) (st : SchedState)
    (e : EmailData)
    (h : lookupExisting st e.message_id (get_email_content_hash e) = none) :
    ∃ rec : ProcessedEmail,
      rec.email_id = (if e.message_id ≠ "" then e.message_id else "unknown") ∧
      rec.content_hash = get_email_content_hash e ∧
      (processMessage ctx st e).records = st.records ++ [rec] ∧
      ((processMessage ctx st e).forwardLog = st.forwardLog ∨
        (processMessage ctx st e).forwardLog = st.forwardLog ++ [e]) ∧
      ((processMessage ctx st e).rules = st.rules ∨
        (processMessage ctx st e).rules = run_shadow_mode ctx.bump e st.rules) := by
  simp only [processMessage, h]
  by_cases hc : ctx.isCommand e = true
  · simp only [hc, if_true]
    exact ⟨_, rfl, rfl, rfl, by simp, by simp⟩
  · simp only [hc, if_false, Bool.false_eq_true]
    by_cases hr : is_receipt ctx.selfEmails e
        (some { manual_rules := st.rules, preferences := ctx.preferences }) = true
    · simp only [hr, if_true]
      exact ⟨_, rfl, rfl, rfl, by simp, by simp⟩
    · simp only [hr, if_false, Bool.false_eq_true]
      exact ⟨_, rfl, rfl, rfl, by simp, by simp⟩

/-- The dedup lookup comes up empty exactly when no stored record carries
the message's id (when it has one) or its content hash. -/
theorem lookupExisting_eq_none_iff (st : SchedState) (mid h : String) :
    lookupExisting st mid h = none ↔
      ∀ r ∈ st.records, (mid ≠ "" → r.email_id ≠ mid) ∧ r.content_hash ≠ h := by
  simp only [lookupExisting]
  by_cases hm : mid = ""
  · subst hm
    rw [if_neg (by simp)]
    show st.records.find? (fun r => r.content_hash == h) = none ↔ _
    rw [List.find?_eq_none]
    constructor
    · intro hall r hr
      exact ⟨fun hfalse => absurd rfl hfalse, by simpa using hall r hr⟩
    · intro hall r hr
      simpa using (hall r hr).2
  · rw [if_pos hm]
    cases hid : st.records.find? (fun r => r.email_id == mid) with
    | some r =>
        show some r = none ↔ _
        constructor
        · intro hfalse
          exact absurd hfalse (Option.some_ne_none r)
        · intro hall
          exfalso
          have hrmem : r ∈ st.records := List.mem_of_find?_eq_some hid
          have hrid := List.find?_some hid
          exact (hall r hrmem).1 hm (by simpa using hrid)
    | none =>
        show st.records.find? (fun r => r.content_hash == h) = none ↔ _
        rw [List.find?_eq_none] at hid
        rw [List.find?_eq_none]
        constructor
        · intro hall r hr
          exact ⟨fun _ => by simpa using hid r hr, by simpa using hall r hr⟩
        · intro hall r hr
          simpa using (hall r hr).2

/-- A stored record with the message's content hash guarantees the dedup
lookup finds something (by id or, failing that, by hash). -/
theorem lookup_isSome_of_hashRecord (st : SchedState) (e : EmailData)
    (h : ∃ r ∈ st.records, r.content_hash = get_email_content_hash e) :
    (lookupExisting st e.message_id (get_email_content_hash e)).isSome = true := by
  simp only [lookupExisting]
  cases hid : (if e.message_id ≠ "" then
      st.records.find? (fun r => r.email_id == e.message_id) else none) with
  | some r => rfl
  | none =>
      show (st.records.find? (fun r => r.content_hash == get_email_content_hash e)).isSome = true
      rw [List.find?_isSome]
      obtain ⟨r, hr, hh⟩ := h
      exact ⟨r, hr, by simpa using hh⟩

/-- Once a record with the message's content hash is stored and exactly one
record is for the message, processing any other message preserves both
facts and never forwards this message again. -/
theorem dedup_stable_step (ctx : SchedCtx) (e e' : EmailData) (st : SchedState)
    (hhash : ∃ r ∈ st.records, r.content_hash = get_email_content_hash e)
    (hcount : countRecordsFor st e = 1) :
    (∃ r ∈ (processMessage ctx st e').records,
      r.content_hash = get_email_content_hash e) ∧
    countRecordsFor (processMessage ctx st e') e = 1 ∧
    countForwards (processMessage ctx st e') e = countForwards st e := by
  cases hl : lookupExisting st e'.message_id (get_email_content_hash e') with
  | some r0 =>
      rw [processMessage_of_found ctx st e' (by rw [hl]; rfl)]
      exact ⟨hhash, hcount, rfl⟩
  | none =>
      obtain ⟨rec, hid, hh, hrecs, hfwd, _⟩ := processMessage_inserted ctx st e' hl
      have hall := (lookupExisting_eq_none_iff st e'.message_id
        (get_email_content_hash e')).mp hl
      obtain ⟨rc, hrc, hrchash⟩ := hhash
      have hne : get_email_content_hash e ≠ get_email_content_hash e' := by
        have h2 := (hall rc hrc).2
        rw [hrchash] at h2
        exact h2
      refine ⟨⟨rc, by rw [hrecs]; exact List.mem_append_left _ hrc, hrchash⟩, ?_, ?_⟩
      · unfold countRecordsFor at hcount ⊢
        rw [hrecs, List.filter_append]
        have hrecfalse : isRecordFor e rec = false := by
          unfold isRecordFor
          rw [hh]
          have : (get_email_content_hash e' == get_email_content_hash e) = false := by
            simpa using Ne.symm hne
          rw [this, Bool.and_false]
        simp [hrecfalse, hcount]
      · have hne' : e' ≠ e := by
          intro hEq
          rw [hEq] at hl
          have := lookup_isSome_of_hashRecord st e ⟨rc, hrc, hrchash⟩
          rw [hl] at this
          cases this
        rcases hfwd with hsame | happ
        · unfold countForwards
          rw [hsame]
        · unfold countForwards
          rw [happ, List.filter_append]
          simp [hne']

/-- `dedup_stable_step` extended over a whole batch of other messages. -/
theorem dedup_stable_fold (ctx : SchedCtx) (e : EmailData)
    (mid : List EmailData) (st : SchedState)
    (hhash : ∃ r ∈ st.records, r.content_hash = get_email_content_hash e)
    (hcount : countRecordsFor st e = 1) :
    (∃ r ∈ (processMessages ctx st mid).records,
      r.content_hash = get_email_content_hash e) ∧
    countRecordsFor (processMessages ctx st mid) e = 1 ∧
    countForwards (processMessages ctx st mid) e = countForwards st e := by
  induction mid generalizing st with
  | nil => exact ⟨hhash, hcount, rfl⟩
  | cons x xs ih =>
      obtain ⟨h1, h2, h3⟩ := dedup_stable_step ctx e x st hhash hcount
      obtain ⟨g1, g2, g3⟩ := ih (processMessage ctx st x) h1 h2
      refine ⟨g1, g2, ?_⟩
      show countForwards (processMessages ctx (processMessage ctx st x) xs) e = _
      rw [g3, h3]

/-- **C5.** Processing is idempotent per message: if no record for a
message exists (the dedup lookup over (message id, content hash) comes up
empty), then after its first processing — and after any batch of other
messages, within the same run or a later one, and under possibly different
collaborator contexts — exactly one record for it exists, re-submitting it
is a complete no-op (skipped by the id lookup or, failing that, the
content-hash lookup), and at most one forward attempt was ever made for
it. -/
theorem dedup_idempotent_processing (ctx ctx2 ctx3 : SchedCtx)
    (st : SchedState) (e : EmailData) (mid : List EmailData)
    (h : lookupExisting st e.message_id (get_email_content_hash e) = none) :
    processMessage ctx3 (processMessages ctx2 (processMessage ctx st e) mid) e =
      processMessages ctx2 (processMessage ctx st e) mid ∧
    countRecordsFor (processMessages ctx2 (processMessage ctx st e) mid) e = 1 ∧
    countForwards (processMessages ctx2 (processMessage ctx st e) mid) e ≤
      countForwards st e + 1 := by
  obtain ⟨rec, hid, hh, hrecs, hfwd, _⟩ := processMessage_inserted ctx st e h
  have hall := (lookupExisting_eq_none_iff st e.message_id
    (get_email_content_hash e)).mp h
  have hhash1 : ∃ r ∈ (processMessage ctx st e).records,
      r.content_hash = get_email_content_hash e :=
    ⟨rec, by rw [hrecs]; exact List.mem_append_right _ (List.mem_singleton.mpr rfl), hh⟩
  have hcount1 : countRecordsFor (processMessage ctx st e) e = 1 := by
    unfold countRecordsFor
    rw [hrecs, List.filter_append]
    have hold : st.records.filter (isRecordFor e) = [] := by
      rw [List.filter_eq_nil]
      intro r hr
      have h2 := (hall r hr).2
      unfold isRecordFor
      simp [h2]
    have hnew : isRecordFor e rec = true := by
      unfold isRecordFor
      rw [hid, hh]
      simp
    rw [hold]
    simp [hnew]
  obtain ⟨g1, g2, g3⟩ := dedup_stable_fold ctx2 e mid _ hhash1 hcount1
  refine ⟨processMessage_of_found ctx3 _ e (lookup_isSome_of_hashRecord _ e g1), g2, ?_⟩
  have hstep : countForwards (processMessage ctx st e) e ≤ countForwards st e + 1 := by
    rcases hfwd with hsame | happ
    · unfold countForwards
      rw [hsame]
      omega
    · unfold countForwards
      rw [happ, List.filter_append]
      have : (List.filter (fun x => decide (x = e)) [e]).length ≤ 1 := by
        simp
      rw [List.length_append]
      omega
  rw [g3]
  exact hstep

/-- Witness: a fresh message processed, followed by an unrelated message,
then re-submitted — one record, one forward-log entry at most, second
submission a no-op. -/
theorem dedup_idempotent_processing_witness :
    lookupExisting {} "m1" (get_email_content_hash { message_id := "m1", subject := "s" }) = none ∧
    (processMessage plainCtx (processMessages plainCtx (processMessage plainCtx {} { message_id := "m1", subject := "s" }) [{ subject := "other" }]) { message_id := "m1", subject := "s" } =
      processMessages plainCtx (processMessage plainCtx {} { message_id := "m1", subject := "s" }) [{ subject := "other" }] ∧
    countRecordsFor (processMessages plainCtx (processMessage plainCtx {} { message_id := "m1", subject := "s" }) [{ subject := "other" }]) { message_id := "m1", subject := "s" } = 1 ∧
    countForwards (processMessages plainCtx (processMessage plainCtx {} { message_id := "m1", subject := "s" }) [{ subject := "other" }]) { message_id := "m1", subject := "s" } ≤
      countForwards {} { message_id := "m1", subject := "s" } + 1) := by
  refine ⟨rfl, ?_⟩
  exact dedup_idempotent_processing plainCtx plainCtx plainCtx {} { message_id := "m1", subject := "s" } [{ subject := "other" }] rfl

/-- One loop iteration preserves the record-store uniqueness invariant. -/
theorem recordsUnique_step (ctx : SchedCtx) (st : SchedState) (e : EmailData)
    (hinv : recordsUnique st.records) :
    recordsUnique (processMessage ctx st e).records := by
  cases hl : lookupExisting st e.message_id (get_email_content_hash e) with
  | some r0 =>
      rw [processMessage_of_found ctx st e (by rw [hl]; rfl)]
      exact hinv
  | none =>
      obtain ⟨rec, hid, hh, hrecs, _, _⟩ := processMessage_inserted ctx st e hl
      have hall := (lookupExisting_eq_none_iff st e.message_id
        (get_email_content_hash e)).mp hl
      rw [hrecs]
      unfold recordsUnique at hinv ⊢
      rw [List.pairwise_append]
      refine ⟨hinv, List.pairwise_singleton _ _, ?_⟩
      intro a ha b hb
      have hb' : b = rec := by simpa using hb
      subst hb'
      have h2 := hall a ha
      constructor
      · intro hideq
        by_cases hm : e.message_id = ""
        · rw [hid, if_neg (by simpa using hm)] at hideq
          exact hideq
        · exfalso
          rw [hid, if_pos (by simpa using hm)] at hideq
          exact h2.1 (by simpa using hm) hideq
      · rw [hh]
        exact h2.2

/-- **C6 (amended).** Every run preserves the uniqueness invariant of the
record store: no two persisted records share a content hash, and no two
share a stored message id unless that id is the `"unknown"` sentinel, which
is stored whenever a message arrives without a Message-ID (such messages
are deduplicated by content hash only). -/
theorem processed_email_uniqueness (ctx : SchedCtx) (confT : ℚ) (countT : Nat)
    (st : SchedState) (emails : List EmailData)
    (hinv : recordsUnique st.records) :
    recordsUnique (processRunMessages ctx confT countT st emails).records := by
  show recordsUnique (processMessages ctx st emails).records
  induction emails generalizing st with
  | nil => exact hinv
  | cons x xs ih =>
      show recordsUnique (processMessages ctx (processMessage ctx st x) xs).records
      exact ih (processMessage ctx st x) (recordsUnique_step ctx st x hinv)

/-- Witness: a run over a duplicate pair and a message with an id, from an
empty store, keeps the store unique. -/
theorem processed_email_uniqueness_witness :
    recordsUnique (({} : SchedState)).records ∧
    recordsUnique (processRunMessages plainCtx 1 5 {} [{ subject := "a" }, { subject := "a" }, { message_id := "m", subject := "c" }]).records :=
  ⟨List.Pairwise.nil,
   processed_email_uniqueness plainCtx 1 5 {} [{ subject := "a" }, { subject := "a" }, { message_id := "m", subject := "c" }] List.Pairwise.nil⟩

/-- **C6 counterexample.** The claim as stated — no two records ever share
a stored message id, including records for messages without a Message-ID —
fails on the code: two distinct id-less messages are both persisted with
the sentinel id `"unknown"`. -/
theorem processed_email_uniqueness_counterexample :
    recordsUniqueStated (({} : SchedState)).records ∧
    (processRunMessages plainCtx 1 5 {} [{ subject := "a" }, { subject := "b" }]).records.map (fun r => r.email_id) = ["unknown", "unknown"] ∧
    ¬ recordsUniqueStated (processRunMessages plainCtx 1 5 {} [{ subject := "a" }, { subject := "b" }]).records := by
  refine ⟨List.Pairwise.nil, by decide, ?_⟩
  unfold recordsUniqueStated
  decide

/-- Shadow evaluation never touches the shadow-mode flag of any rule. -/
theorem run_shadow_mode_flag (bump : ℚ → ℚ) (e : EmailData)
    (rules : List ManualRule) (i : Nat) :
    ((run_shadow_mode bump e rules).get? i).map (fun r => r.is_shadow_mode) =
      (rules.get? i).map (fun r => r.is_shadow_mode) := by
  unfold run_shadow_mode
  rw [List.get?_map]
  cases rules.get? i with
  | none => rfl
  | some r =>
      show some _ = some _
      congr 1
      beta_reduce
      split <;> rfl

/-- A loop iteration never touches the shadow-mode flag of any rule. -/
theorem processMessage_rules_flag (ctx : SchedCtx) (st : SchedState)
    (e : EmailData) (i : Nat) :
    (((processMessage ctx st e).rules).get? i).map (fun r => r.is_shadow_mode) =
      (st.rules.get? i).map (fun r => r.is_shadow_mode) := by
  cases hl : lookupExisting st e.message_id (get_email_content_hash e) with
  | some r0 => rw [processMessage_of_found ctx st e (by rw [hl]; rfl)]
  | none =>
      obtain ⟨rec, _, _, _, _, hrules⟩ := processMessage_inserted ctx st e hl
      rcases hrules with hsame | hshadow
      · rw [hsame]
      · rw [hshadow]
        exact run_shadow_mode_flag ctx.bump e st.rules i

/-- The whole message loop never touches the shadow-mode flag of any rule. -/
theorem processMessages_rules_flag (ctx : SchedCtx) (st : SchedState)
    (emails : List EmailData) (i : Nat) :
    (((processMessages ctx st emails).rules).get? i).map (fun r => r.is_shadow_mode) =
      (st.rules.get? i).map (fun r => r.is_shadow_mode) := by
  induction emails generalizing st with
  | nil => rfl
  | cons x xs ih =>
      show (((processMessages ctx (processMessage ctx st x) xs).rules).get? i).map _ = _
      rw [ih (processMessage ctx st x), processMessage_rules_flag ctx st x i]

/-- Auto-promotion acts pointwise. -/
theorem auto_promote_rules_get? (confT : ℚ) (countT : Nat)
    (rules : List ManualRule) (i : Nat) :
    (auto_promote_rules confT countT rules).get? i =
      (rules.get? i).map (fun r =>
        if r.is_shadow_mode ∧ confT ≤ r.confidence ∧ countT ≤ r.match_count then
          { r with is_shadow_mode := false,
                   purpose := some (pyOr r.purpose "" ++ " (AUTO)") }
        else r) := by
  unfold auto_promote_rules
  rw [List.get?_map]

/-- Appending the automatic-promotion marker yields a non-empty string. -/
theorem append_auto_ne_empty (s : String) : s ++ " (AUTO)" ≠ "" := by
  intro hEq
  have hlen := congrArg String.length hEq
  rw [String.length_append] at hlen
  have h7 : (" (AUTO)" : String).length = 7 := rfl
  have h0 : ("" : String).length = 0 := rfl
  rw [h7, h0] at hlen
  omega

/-- The annotated purpose mentions the automatic-promotion marker. -/
theorem annotated_purpose_contains (s : String) :
    strContains (pyOr (some (s ++ " (AUTO)")) "") "(AUTO)" = true := by
  show strContains (if s ++ " (AUTO)" = "" then "" else s ++ " (AUTO)") "(AUTO)" = true
  rw [if_neg (append_auto_ne_empty s)]
  exact strContains_append_right _ _ _ (by decide)

/-- **C9.** Modelled from the spec (`learning_service.py` is absent from
the snapshot): the shadow-mode flag of a manual rule only ever transitions
from true to false across a whole processing run — shadow evaluation never
flips it and `auto_promote_rules`, invoked once after all messages, never
sets it back to true; a rule is promoted only when its confidence and match
count both reach the maturity thresholds, the promotion annotates the
purpose with the `(AUTO)` marker, and a shadow rule with confidence 0.95
and match count 5 qualifies for any thresholds at most (0.95, 5). -/
theorem shadow_promotion_monotone (confT : ℚ) (countT : Nat)
    (hc : confT ≤ 19/20) (hm : countT ≤ 5) :
    (∀ (ctx : SchedCtx) (st : SchedState) (emails : List EmailData)
        (i : Nat) (r r' : ManualRule),
      st.rules.get? i = some r →
      (processRunMessages ctx confT countT st emails).rules.get? i = some r' →
      r.is_shadow_mode = false → r'.is_shadow_mode = false) ∧
    (∀ (rules : List ManualRule) (i : Nat) (r r' : ManualRule),
      rules.get? i = some r →
      (auto_promote_rules confT countT rules).get? i = some r' →
      (r.is_shadow_mode = true → r'.is_shadow_mode = false →
        confT ≤ r.confidence ∧ countT ≤ r.match_count ∧
        strContains (pyOr r'.purpose "") "(AUTO)" = true) ∧
      (r.is_shadow_mode = true → r.confidence = 19/20 → r.match_count = 5 →
        r'.is_shadow_mode = false ∧
        strContains (pyOr r'.purpose "") "(AUTO)" = true)) := by
  have hpoint : ∀ (rules : List ManualRule) (i : Nat) (r r' : ManualRule),
      rules.get? i = some r →
      (auto_promote_rules confT countT rules).get? i = some r' →
      r' = (if r.is_shadow_mode ∧ confT ≤ r.confidence ∧ countT ≤ r.match_count then
          { r with is_shadow_mode := false,
                   purpose := some (pyOr r.purpose "" ++ " (AUTO)") }
        else r) := by
    intro rules i r r' hr hr'
    rw [auto_promote_rules_get?, hr] at hr'
    exact (Option.some_inj.mp hr').symm
  constructor
  · intro ctx st emails i r r' hr hr' hflag
    have hmid := processMessages_rules_flag ctx st emails i
    rw [hr] at hmid
    cases hmidval : (processMessages ctx st emails).rules.get? i with
    | none =>
        rw [hmidval] at hmid
        cases hmid
    | some rmid =>
        rw [hmidval] at hmid
        have hmidflag : rmid.is_shadow_mode = false := by
          have h3 : rmid.is_shadow_mode = r.is_shadow_mode := Option.some_inj.mp hmid
          rw [h3, hflag]
        have hr'' : (auto_promote_rules confT countT
            (processMessages ctx st emails).rules).get? i = some r' := hr'
        have := hpoint _ i rmid r' hmidval hr''
        rw [this]
        split
        · rfl
        · exact hmidflag
  · intro rules i r r' hr hr'
    have heq := hpoint rules i r r' hr hr'
    by_cases hcond : r.is_shadow_mode ∧ confT ≤ r.confidence ∧ countT ≤ r.match_count
    · rw [if_pos hcond] at heq
      subst heq
      refine ⟨fun _ _ => ⟨hcond.2.1, hcond.2.2, annotated_purpose_contains _⟩, ?_⟩
      intro _ _ _
      exact ⟨rfl, annotated_purpose_contains _⟩
    · rw [if_neg hcond] at heq
      subst heq
      refine ⟨fun htrue hfalse => ?_, ?_⟩
      · rw [htrue] at hfalse
        cases hfalse
      · intro htrue hconf hcount
        exact absurd ⟨htrue, by rw [hconf]; exact hc, by rw [hcount]; exact hm⟩ hcond

/-- Witness: with thresholds (0.9, 5), a shadow rule with confidence 0.95
and match count 5 (the spec's example) is promoted and annotated. -/
theorem shadow_promotion_monotone_witness :
    ((9:ℚ)/10 ≤ 19/20) ∧ ((5:Nat) ≤ 5) ∧
    ∃ r' : ManualRule,
      (auto_promote_rules ((9:ℚ)/10) 5 [{ email_pattern := some "*@high-confidence.com", purpose := some "Testing", confidence := 19/20, match_count := 5, is_shadow_mode := true }]).get? 0 = some r' ∧
      r'.is_shadow_mode = false ∧
      strContains (pyOr r'.purpose "") "(AUTO)" = true := by
  have hc : (9:ℚ)/10 ≤ 19/20 := by norm_num
  have hm : (5:Nat) ≤ 5 := le_refl 5
  refine ⟨hc, hm, ?_⟩
  refine ⟨_, rfl, ?_, ?_⟩
  · exact (((shadow_promotion_monotone ((9:ℚ)/10) 5 hc hm).2 [{ email_pattern := some "*@high-confidence.com", purpose := some "Testing", confidence := 19/20, match_count := 5, is_shadow_mode := true }] 0 { email_pattern := some "*@high-confidence.com", purpose := some "Testing", confidence := 19/20, match_count := 5, is_shadow_mode := true } _ rfl rfl).2 rfl rfl rfl).1
  · exact (((shadow_promotion_monotone ((9:ℚ)/10) 5 hc hm).2 [{ email_pattern := some "*@high-confidence.com", purpose := some "Testing", confidence := 19/20, match_count := 5, is_shadow_mode := true }] 0 { email_pattern := some "*@high-confidence.com", purpose := some "Testing", confidence := 19/20, match_count := 5, is_shadow_mode := true } _ rfl rfl).2 rfl rfl rfl).2
